import Mathlib

/-!
# ESS web client: session lifecycle and signed requests

A shallow embedding of the four browser scripts of the ESS client
(`www/auth.js`, `www/authLogin.js`, `www/authRegister.js`, `www/dashboard.js`).

Every handler of the scripts is a function that returns the list of effects it
performs, in program order (storage writes, navigations, requests sent, messages
shown).  The browser and the libraries the scripts call are parameters:
`jose.decodeJwt`, the JSEncrypt signer and the clock.
-/

namespace ESS

/-! ## JavaScript values -/

/-- The JavaScript values that can sit in a field of a parsed JSON body or in one of
the scratch variables of `dashboard.js`. Numbers are the integers. -/
inductive JSVal where
  | undefined
  | null
  | bool (b : Bool)
  | num (n : Int)
  | str (s : String)
  deriving DecidableEq, Repr

namespace JSVal

/-- Truthiness, as tested by `if (v)` and `v ? a : b`. -/
def truthy : JSVal → Bool
  | undefined => false
  | null => false
  | bool b => b
  | num n => n != 0
  | str s => s != ""

/-- String coercion, as done by `"..." + v`, by `setItem` and by `setRequestHeader`. -/
def toStr : JSVal → String
  | undefined => "undefined"
  | null => "null"
  | bool true => "true"
  | bool false => "false"
  | num n => toString n
  | str s => s

/-- Strict equality `v === s` against a string. -/
def strictEqStr (v : JSVal) (s : String) : Bool :=
  match v with
  | str t => t == s
  | _ => false

end JSVal

/-- Truthiness of the result of `localStorage.getItem`: `null` and the empty string
are falsy. -/
def truthyItem : Option String → Bool
  | none => false
  | some s => s != ""

/-! ## localStorage -/

/-- The per-origin storage: the keys that are set, each with its value. -/
abbrev LocalStorage := List (String × String)

namespace LocalStorage

/-- The call `localStorage.getItem(key)`; `none` is `null`. -/
def getItem (st : LocalStorage) (key : String) : Option String :=
  (st.find? (fun kv => kv.1 == key)).map Prod.snd

/-- The call `localStorage.removeItem(key)`. -/
def removeItem (st : LocalStorage) (key : String) : LocalStorage :=
  st.filter (fun kv => !(kv.1 == key))

/-- The call `localStorage.setItem(key, value)`. -/
def setItem (st : LocalStorage) (key value : String) : LocalStorage :=
  (key, value) :: removeItem st key

end LocalStorage

/-! ## Requests and effects -/

/-- A body handed to `xhr.send` by `dashboard.js`. -/
inductive Body where
  | empty
  | json (file_name : String)
  | form (contents : String)
  deriving DecidableEq, Repr

/-- A request of `dashboard.js`: the arguments of `xhr.open`, the headers in the order
of the `setRequestHeader` calls, and the argument of `xhr.send`. -/
structure Request where
  method : String
  url : String
  headers : List (String × String)
  body : Body
  deriving DecidableEq, Repr

/-- The value of the first header called `name`. -/
def Request.header (r : Request) (name : String) : Option String :=
  (r.headers.find? (fun h => h.1 == name)).map Prod.snd

/-- A share link as the client reads it: only `file_name` is looked at. -/
structure Link where
  file_name : JSVal
  deriving DecidableEq, Repr

/-- What a handler does to the world, in program order: storage calls, navigations,
requests, console output and what the user is shown. Changes of style alone (hiding
a message box) are left out. -/
inductive Effect where
  | decodeJwt (token : String)
  | navigate (url : String)
  | setItem (key value : String)
  | removeItem (key : String)
  | fetch (url : String) (formData : List (String × String))
  | send (r : Request)
  | alert (msg : String)
  | consoleLog (msg : String)
  | consoleError (label detail : String)
  | showError (msg : String)
  | showInfo (msg : String)
  | showPasswordError
  | submitDisabled (b : Bool)
  | renderFileList (names : List String)
  | listenShareLinks (allLinks : List (String × Link))
  | displayFileContent (content : String)
  | displayShareLinks (links : List (String × Link))
  | saveFile (fileName : String) (contents : String)
  | removeLinkBox (linkText : String)
  | uncaught (what : String)
  deriving DecidableEq, Repr

/-- The storage after a handler ran: its `setItem` and `removeItem` calls, in order. -/
def LocalStorage.apply (st : LocalStorage) : List Effect → LocalStorage
  | [] => st
  | Effect.setItem k v :: es => LocalStorage.apply (st.setItem k v) es
  | Effect.removeItem k :: es => LocalStorage.apply (st.removeItem k) es
  | _ :: es => LocalStorage.apply st es

/-- The requests a handler sent with `xhr.send`, in order. -/
def sentRequests : List Effect → List Request
  | [] => []
  | Effect.send r :: es => r :: sentRequests es
  | _ :: es => sentRequests es

/-- The pages a handler navigated to by assigning `window.location.href`, in order. -/
def navigations : List Effect → List String
  | [] => []
  | Effect.navigate u :: es => u :: navigations es
  | _ :: es => navigations es

/-- The `setItem` calls among the effects of a handler, in order. -/
def storageWrites : List Effect → List (String × String)
  | [] => []
  | Effect.setItem k v :: es => (k, v) :: storageWrites es
  | _ :: es => storageWrites es

/-! ## auth.js -/

/-- The claims of a decoded token: `exp` is absent (`undefined`) or epoch seconds. -/
structure Claims where
  exp : Option Int
  deriving DecidableEq, Repr

/-- The function `authenticateWithToken` of `auth.js`. `decodeJwt` is `jose.decodeJwt`,
with `none` when it throws; `ms` is the reading of `Date.now()`. An absent `exp` makes
`diff` NaN, and `NaN > 0` is false. -/
def authenticateWithToken (decodeJwt : String → Option Claims) (ms : Int)
    (token : String) : List Effect :=
  Effect.decodeJwt token ::
    match decodeJwt token with
    | none => [Effect.uncaught "jose.decodeJwt"]
    | some claims =>
      let now := Int.fdiv ms 1000
      match claims.exp with
      | none => [Effect.navigate "/dashboard.html"]
      | some exp =>
        let diff := now - exp
        if diff > 0 then [Effect.navigate "/login.html"]
        else [Effect.navigate "/dashboard.html"]

/-- The `DOMContentLoaded` handler of `auth.js`. -/
def authOnLoad (decodeJwt : String → Option Claims) (ms : Int)
    (st : LocalStorage) : List Effect :=
  let token := st.getItem "jwtToken"
  match token with
  | some t =>
    if truthyItem (some t) then authenticateWithToken decodeJwt ms t
    else [Effect.navigate "/login.html"]
  | none => [Effect.navigate "/login.html"]

/-! ## authLogin.js and authRegister.js -/

/-- What the script gets out of `response.json()`: the fields of the parsed object, or
a failure with its `message` (the promise rejects, or the parsed value is `null` and
reading a field of it throws). -/
inductive ParsedBody where
  | unreadable (message : String)
  | obj (fields : List (String × JSVal))
  deriving DecidableEq, Repr

/-- A property read `data.name`; a missing property is `undefined`. -/
def getField (fields : List (String × JSVal)) (name : String) : JSVal :=
  match fields.find? (fun kv => kv.1 == name) with
  | some kv => kv.2
  | none => JSVal.undefined

/-- How a `fetch` settles: rejected with an error, or fulfilled with a response. -/
inductive FetchResult where
  | rejected (message : String)
  | response (status : Nat) (body : ParsedBody)
  deriving DecidableEq, Repr

/-- The getter `response.ok`: the status is in the range 200 to 299. -/
def responseOk (status : Nat) : Bool :=
  decide (200 ≤ status) && decide (status ≤ 299)

/-- The message common to the login and registration pages. -/
def genericError : String := "An error occurred. Please try again later."

/-- The function `handleLoginError` of `authLogin.js`. -/
def handleLoginError (message : String) : List Effect :=
  [Effect.consoleLog message, Effect.showError message, Effect.submitDisabled false]

/-- The promise chain of `loginUser` in `authLogin.js`, run on the settled fetch. -/
def loginUserSettled (r : FetchResult) : List Effect :=
  match r with
  | FetchResult.rejected message => handleLoginError message
  | FetchResult.response status body =>
    if responseOk status then
      match body with
      | ParsedBody.unreadable message => handleLoginError message
      | ParsedBody.obj data =>
        [Effect.setItem "privateKey" (getField data "private_key").toStr,
         Effect.setItem "jwtToken" (getField data "token").toStr,
         Effect.navigate "dashboard.html"]
    else if status = 400 then
      match body with
      | ParsedBody.unreadable message => handleLoginError message
      | ParsedBody.obj errorMsg =>
        handleLoginError
          (if (getField errorMsg "error").truthy
           then "Problem logging in: " ++ (getField errorMsg "error").toStr
           else genericError)
    else handleLoginError genericError

/-- The call `loginUser(formData)` of `authLogin.js` up to the point where the fetch
is in flight. -/
def loginUser (formData : List (String × String)) : List Effect :=
  [Effect.fetch "https://localhost:27464/user/login" formData]

/-- The submit listener of the login form. -/
def loginSubmit (formData : List (String × String)) : List Effect :=
  [Effect.consoleLog "Sending login request...", Effect.submitDisabled true,
   Effect.showInfo "Please wait..."] ++ loginUser formData

/-- The function `handleRegistrationError` of `authRegister.js`. -/
def handleRegistrationError (message : String) : List Effect :=
  [Effect.showError message, Effect.submitDisabled false]

/-- The call `loginUserAfterRegister(formData)` up to the fetch in flight. -/
def loginUserAfterRegister (formData : List (String × String)) : List Effect :=
  [Effect.fetch "https://localhost:27464/user/login" formData]

/-- The function `handleRegistrationResponse` with the `catch` of `registerUser`
around it, run on the settled registration fetch. -/
def registerUserSettled (r : FetchResult) (formData : List (String × String)) :
    List Effect :=
  match r with
  | FetchResult.rejected message => handleRegistrationError message
  | FetchResult.response status body =>
    if !responseOk status then
      if status = 422 then handleRegistrationError "Username contains invalid characters"
      else if status = 409 ∨ status = 400 then
        match body with
        | ParsedBody.unreadable message => handleRegistrationError message
        | ParsedBody.obj errorMsg =>
          handleRegistrationError
            (if (getField errorMsg "error").truthy
             then "Problem creating account: " ++ (getField errorMsg "error").toStr
             else genericError)
      else handleRegistrationError genericError
    else loginUserAfterRegister formData

/-- The call `registerUser(formData)` up to the fetch in flight. -/
def registerUser (formData : List (String × String)) : List Effect :=
  [Effect.consoleLog "Sending registration request...",
   Effect.fetch "https://localhost:27464/user/register" formData]

/-- The submit listener of the registration form; `password` and `confirmPassword` are
the values of the two password fields. -/
def registerSubmit (password confirmPassword : String)
    (formData : List (String × String)) : List Effect :=
  if password ≠ confirmPassword then [Effect.showPasswordError]
  else [Effect.submitDisabled true, Effect.showInfo "Please wait..."] ++ registerUser formData

/-- The promise chain of `loginUserAfterRegister`, run on the settled login fetch;
`username` is the value of the username field. -/
def loginUserAfterRegisterSettled (r : FetchResult) (username : String) : List Effect :=
  match r with
  | FetchResult.rejected message =>
    [Effect.consoleError message "", Effect.submitDisabled false]
  | FetchResult.response status body =>
    if responseOk status then
      match body with
      | ParsedBody.unreadable message =>
        [Effect.consoleError message "", Effect.submitDisabled false]
      | ParsedBody.obj data =>
        [Effect.setItem "privateKey" (getField data "private_key").toStr,
         Effect.setItem "jwtToken" (getField data "token").toStr,
         Effect.navigate ("dashboard.html?username=" ++ username)]
    else [Effect.consoleError "Login failed" "", Effect.submitDisabled false]

/-- Whether the registration fetch settled with `response.ok`, the only case in which
`handleRegistrationResponse` reaches `loginUserAfterRegister`. -/
def registrationOk : FetchResult → Bool
  | FetchResult.rejected _ => false
  | FetchResult.response status _ => responseOk status

/-- A whole registration: the registration fetch settles as `r1`; when that leads to
the follow-up login, its fetch settles as `r2`. -/
def registerThenLogin (r1 r2 : FetchResult) (formData : List (String × String))
    (username : String) : List Effect :=
  registerUserSettled r1 formData ++
    (if registrationOk r1 then loginUserAfterRegisterSettled r2 username else [])

/-! ## dashboard.js -/

/-- What `dashboard.js` is given: the libraries it calls and the two constants it reads
from `localStorage` when the page loads. `jsencrypt key msg` is the value of
`sign.sign(msg, CryptoJS.SHA256, "sha256")` after `sign.setPrivateKey(key)` (a base64
string, or `false` when JSEncrypt cannot sign); `clock n` is the `n`-th reading of
`new Date().getTime()`; `parseFiles` and `parseLinks` are `JSON.parse` on the two
listing payloads, `none` when it throws. -/
structure Env where
  jsencrypt : Option String → String → JSVal
  clock : Nat → Nat
  parseFiles : String → Option (List String)
  parseLinks : String → Option (List (String × Link))
  token : Option String
  private_key : Option String

/-- The undeclared variables `message`, `hash`, `timestamp` and `path` that the
functions of `dashboard.js` assign: properties of the global object. -/
structure Globals where
  message : JSVal
  hash : JSVal
  timestamp : JSVal
  path : JSVal
  deriving DecidableEq, Repr

/-- The state of the dashboard page between two handlers: the scratch globals, the
number of clock readings taken so far, the file names of the rendered list, the
link mappings captured by the click listeners on the Show Share Links buttons (in
registration order), and the link boxes of the share-links view. -/
structure DashState where
  globals : Globals
  reads : Nat
  files : List String
  listeners : List (List (String × Link))
  linkBoxes : List (String × Link)
  deriving DecidableEq, Repr

/-- The state of a freshly loaded dashboard page. -/
def DashState.init : DashState :=
  { globals := { message := JSVal.undefined, hash := JSVal.undefined,
                 timestamp := JSVal.undefined, path := JSVal.undefined },
    reads := 0, files := [], listeners := [], linkBoxes := [] }

/-- A finished `XMLHttpRequest`: what the `readyState === DONE` branch reads. -/
structure XhrDone where
  status : Nat
  statusText : String
  responseText : String
  deriving DecidableEq, Repr

/-- The upper-case hexadecimal digit of `n < 16`. -/
def hexDigit (n : Nat) : Char :=
  if n < 10 then Char.ofNat (48 + n) else Char.ofNat (55 + n)

/-- The characters `encodeURIComponent` leaves alone: letters, digits and
`- _ . ! ~ * ( )` and the apostrophe. -/
def uriUnreserved (c : Char) : Bool :=
  c.isAlphanum || ['-', '_', '.', '!', '~', '*', '(', ')', Char.ofNat 39].contains c

/-- The built-in `encodeURIComponent`: every other character becomes the `%XX`
escapes of its UTF-8 bytes. -/
def encodeURIComponent (s : String) : String :=
  String.mk (s.data.flatMap fun c =>
    if uriUnreserved c then [c]
    else (String.utf8EncodeChar c).flatMap fun b =>
      ['%', hexDigit (b.toNat / 16), hexDigit (b.toNat % 16)])

/-- The part of a file name after its last dot: `fileName.split(".").pop()`. -/
def lastSegment (fileName : String) : List Char :=
  (fileName.data.reverse.takeWhile (fun c => c != '.')).reverse

/-- The function `canViewFileContent`: the extension, lower-cased, is `txt`. -/
def canViewFileContent (fileName : String) : Bool :=
  (lastSegment fileName).map Char.toLower == ['t', 'x', 't']

/-- The function `getCurrentTimestamp`: the next clock reading, as a decimal string. -/
def getCurrentTimestamp (env : Env) (s : DashState) : String × DashState :=
  (toString (env.clock s.reads), { s with reads := s.reads + 1 })

/-- The function `signWithPrivateKey`, with the private key read at page load. -/
def signWithPrivateKey (env : Env) (inputValue : String) : JSVal :=
  env.jsencrypt env.private_key inputValue

/-- The statement `if (token) xhr.setRequestHeader("Authorization", ...)`. -/
def authorizationHeader (token : Option String) : List (String × String) :=
  match token with
  | some t => if truthyItem (some t) then [("Authorization", "Bearer " ++ t)] else []
  | none => []

/-- The function `fetchAllLinks` up to `xhr.send()`; `timestamp` and `path` are its
own constants, `message` and `hash` the globals. -/
def fetchAllLinks (env : Env) (s : DashState) : DashState × List Effect :=
  let (timestamp, s1) := getCurrentTimestamp env s
  let path := "https://localhost:8080/links"
  let g1 := { s1.globals with message := JSVal.str (timestamp ++ "+" ++ path) }
  let g2 := { g1 with hash := signWithPrivateKey env g1.message.toStr }
  ({ s1 with globals := g2 },
   [Effect.send
     { method := "GET", url := path,
       headers := authorizationHeader env.token ++
         [("Hash", g2.hash.toStr), ("Timestamp", timestamp)],
       body := Body.empty }])

/-- The function `fetchFiles` up to `xhr.send()`. -/
def fetchFiles (env : Env) (s : DashState) : DashState × List Effect :=
  let (timestamp, s1) := getCurrentTimestamp env s
  let path := "https://localhost:8080/files"
  let g1 := { s1.globals with message := JSVal.str (timestamp ++ "+" ++ path) }
  let g2 := { g1 with hash := signWithPrivateKey env g1.message.toStr }
  ({ s1 with globals := g2 },
   [Effect.send
     { method := "GET", url := path,
       headers := authorizationHeader env.token ++
         [("Hash", g2.hash.toStr), ("Timestamp", timestamp)],
       body := Body.empty }])

/-- The function `shareFile` up to its end: all four variables are the globals, and
the link listing is requested right after the `send`. -/
def shareFile (env : Env) (s : DashState) (fileName : String) :
    DashState × List Effect :=
  let (t, s1) := getCurrentTimestamp env s
  let g1 := { s1.globals with timestamp := JSVal.str t }
  let g2 := { g1 with path := JSVal.str "https://localhost:8080/link" }
  let g3 := { g2 with message := JSVal.str (g2.timestamp.toStr ++ "+" ++ g2.path.toStr) }
  let g4 := { g3 with hash := signWithPrivateKey env g3.message.toStr }
  let r : Request :=
    { method := "PUT", url := g4.path.toStr,
      headers := authorizationHeader env.token ++
        [("Hash", g4.hash.toStr), ("Timestamp", g4.timestamp.toStr),
         ("Content-Type", "application/json")],
      body := Body.json fileName }
  let (s2, es) := fetchAllLinks env { s1 with globals := g4 }
  (s2, Effect.send r :: es)

/-- The GET on a file that `readFile` and `downloadFile` both build, with the globals. -/
def getFile (env : Env) (s : DashState) (fileName : String) : DashState × List Effect :=
  let (t, s1) := getCurrentTimestamp env s
  let g1 := { s1.globals with timestamp := JSVal.str t }
  let g2 := { g1 with
    path := JSVal.str ("https://localhost:8080/files/" ++ encodeURIComponent fileName) }
  let g3 := { g2 with message := JSVal.str (g2.timestamp.toStr ++ "+" ++ g2.path.toStr) }
  let g4 := { g3 with hash := signWithPrivateKey env g3.message.toStr }
  ({ s1 with globals := g4 },
   [Effect.send
     { method := "GET", url := g4.path.toStr,
       headers := authorizationHeader env.token ++
         [("Hash", g4.hash.toStr), ("Timestamp", g4.timestamp.toStr)],
       body := Body.empty }])

/-- The function `displayFileContentInModal`. -/
def displayFileContentInModal (content : String) : List Effect :=
  [Effect.displayFileContent content]

/-- The function `readFile` up to `xhr.send()`. -/
def readFile (env : Env) (s : DashState) (fileName : String) : DashState × List Effect :=
  if !canViewFileContent fileName then
    (s, displayFileContentInModal
      "Unexpected error. File extension is not supported for viewing. Please download the file.")
  else getFile env s fileName

/-- The function `downloadFile` up to `xhr.send()`. -/
def downloadFile (env : Env) (s : DashState) (fileName : String) :
    DashState × List Effect :=
  getFile env s fileName

/-- The `reader.onload` callback of the upload button, for the selected file. -/
def uploadFile (env : Env) (s : DashState) (fileName contents : String) :
    DashState × List Effect :=
  let (timestamp, s1) := getCurrentTimestamp env s
  let path := "https://localhost:8080/files/" ++ encodeURIComponent fileName
  let g1 := { s1.globals with message := JSVal.str (timestamp ++ "+" ++ path) }
  let g2 := { g1 with hash := signWithPrivateKey env g1.message.toStr }
  ({ s1 with globals := g2 },
   [Effect.send
     { method := "PUT", url := path,
       headers := authorizationHeader env.token ++
         [("Hash", g2.hash.toStr), ("Timestamp", timestamp)],
       body := Body.form contents }])

/-- The function `deleteLink` up to `xhr.send()`. -/
def deleteLink (env : Env) (s : DashState) (linkText : String) :
    DashState × List Effect :=
  let (timestamp, s1) := getCurrentTimestamp env s
  let path := "https://localhost:27401/link/" ++ encodeURIComponent linkText
  let g1 := { s1.globals with message := JSVal.str (timestamp ++ "+" ++ path) }
  let g2 := { g1 with hash := signWithPrivateKey env g1.message.toStr }
  ({ s1 with globals := g2 },
   [Effect.consoleLog g1.message.toStr,
    Effect.send
     { method := "DELETE", url := path,
       headers := authorizationHeader env.token ++
         [("Hash", g2.hash.toStr), ("Timestamp", timestamp)],
       body := Body.empty }])

/-- The `readyState === DONE` branch of the handler that `shareFile` installs. -/
def shareFileDone (x : XhrDone) : List Effect :=
  if x.status = 200 then [Effect.alert ("Shareable link created: " ++ x.responseText)]
  else if x.status = 403 then [Effect.alert "You don't have permission to create links."]
  else [Effect.consoleError "Failed to create shareable link:" x.statusText]

/-- The `DONE` branch of the handler that `readFile` installs. -/
def readFileDone (x : XhrDone) : List Effect :=
  if x.status = 200 then displayFileContentInModal x.responseText
  else [Effect.consoleError "Failed to fetch file:" x.statusText]

/-- The `DONE` branch of the handler that `downloadFile` installs; the payload is
saved under `fileName`. -/
def downloadFileDone (fileName : String) (x : XhrDone) : List Effect :=
  if x.status = 200 then [Effect.saveFile fileName x.responseText]
  else [Effect.consoleError "Failed to fetch file:" x.statusText]

/-- The `DONE` branch of the handler that `fetchAllLinks` installs: on 200 every Show
Share Links button gets one more click listener, which keeps `allLinks`. -/
def fetchAllLinksDone (env : Env) (s : DashState) (x : XhrDone) :
    DashState × List Effect :=
  if x.status = 200 then
    match env.parseLinks x.responseText with
    | none => (s, [Effect.uncaught "JSON.parse"])
    | some allLinks =>
      ({ s with listeners := s.listeners ++ [allLinks] },
       [Effect.listenShareLinks allLinks])
  else (s, [Effect.consoleError "Failed to fetch all links:" x.statusText])

/-- The `DONE` branch of the handler that `fetchFiles` installs: on 200 the list is
rebuilt with new buttons and the link listing is requested. -/
def fetchFilesDone (env : Env) (s : DashState) (x : XhrDone) : DashState × List Effect :=
  if x.status = 200 then
    match env.parseFiles x.responseText with
    | none => (s, [Effect.uncaught "JSON.parse"])
    | some fileList =>
      let (s1, es) := fetchAllLinks env { s with files := fileList, listeners := [] }
      (s1, Effect.renderFileList fileList :: es)
  else (s, [Effect.consoleError "Error fetching files:" x.responseText])

/-- The `DONE` branch of the handler that the upload installs. -/
def uploadFileDone (env : Env) (s : DashState) (x : XhrDone) : DashState × List Effect :=
  if x.status = 200 then
    let (s1, es) := fetchFiles env s
    (s1, Effect.alert "File uploaded!" :: es)
  else if x.status = 403 then (s, [Effect.alert "You don't have permission to upload files."])
  else (s, [Effect.alert ("File upload failed: " ++ x.responseText)])

/-- The function `removeDeletedLinkFromModal`: every link box whose input has the id
`"link-" + linkText` is removed. -/
def removeDeletedLinkFromModal (s : DashState) (linkText : String) :
    DashState × List Effect :=
  ({ s with linkBoxes :=
      s.linkBoxes.filter (fun box => !(("link-" ++ box.1) == ("link-" ++ linkText))) },
   [Effect.removeLinkBox linkText])

/-- The `DONE` branch of the handler that `deleteLink` installs. -/
def deleteLinkDone (env : Env) (s : DashState) (linkText : String) (x : XhrDone) :
    DashState × List Effect :=
  if x.status = 200 then
    let (s1, es1) := removeDeletedLinkFromModal s linkText
    let (s2, es2) := fetchFiles env s1
    (s2, Effect.alert "Link deleted successfully" :: (es1 ++ es2))
  else (s, [Effect.consoleError "Failed to delete link:" x.statusText])

/-- The filter of the click listener that `fetchAllLinks` registers:
`Object.entries(allLinks).filter(([key, link]) => link.file_name === fileName)`, with
`allLinks` given as its entries in iteration order. -/
def linksWithSameFileName (allLinks : List (String × Link)) (fileName : String) :
    List (String × Link) :=
  allLinks.filter (fun entry => entry.2.file_name.strictEqStr fileName)

/-- The function `displayShareLinksModal`: the view is emptied and gets one box per
entry. -/
def displayShareLinksModal (s : DashState) (shareLinks : List (String × Link)) :
    DashState × List Effect :=
  ({ s with linkBoxes := shareLinks }, [Effect.displayShareLinks shareLinks])

/-- A click on the Show Share Links button of `fileName`: the registered listeners run
in registration order, each on the mapping it captured. -/
def showShareLinksClick (s : DashState) (fileName : String) : DashState × List Effect :=
  s.listeners.foldl
    (fun acc allLinks =>
      let (s1, es) := displayShareLinksModal acc.1 (linksWithSameFileName allLinks fileName)
      (s1, acc.2 ++ es))
    (s, [])

/-- The click listener of the logout button. -/
def logout : List Effect :=
  [Effect.removeItem "jwtToken", Effect.removeItem "privateKey",
   Effect.navigate "/login.html"]

/-- The handlers of the dashboard page: the load of the page, the clicks, and the
completions of the requests. -/
inductive Event where
  | load
  | clickRead (fileName : String)
  | clickDownload (fileName : String)
  | clickShare (fileName : String)
  | clickShowShareLinks (fileName : String)
  | clickDelete (linkText : String)
  | clickUploadNoFile
  | uploadRead (fileName contents : String)
  | clickLogout
  | filesDone (x : XhrDone)
  | linksDone (x : XhrDone)
  | readDone (x : XhrDone)
  | downloadDone (fileName : String) (x : XhrDone)
  | shareDone (x : XhrDone)
  | uploadDone (x : XhrDone)
  | deleteDone (linkText : String) (x : XhrDone)
  deriving DecidableEq, Repr

/-- One handler run of the dashboard page. -/
def step (env : Env) (s : DashState) : Event → DashState × List Effect
  | Event.load => fetchFiles env s
  | Event.clickRead fileName => readFile env s fileName
  | Event.clickDownload fileName => downloadFile env s fileName
  | Event.clickShare fileName => shareFile env s fileName
  | Event.clickShowShareLinks fileName => showShareLinksClick s fileName
  | Event.clickDelete linkText => deleteLink env s linkText
  | Event.clickUploadNoFile => (s, [Effect.alert "Please select a file to upload"])
  | Event.uploadRead fileName contents => uploadFile env s fileName contents
  | Event.clickLogout => (s, logout)
  | Event.filesDone x => fetchFilesDone env s x
  | Event.linksDone x => fetchAllLinksDone env s x
  | Event.readDone x => (s, readFileDone x)
  | Event.downloadDone fileName x => (s, downloadFileDone fileName x)
  | Event.shareDone x => (s, shareFileDone x)
  | Event.uploadDone x => uploadFileDone env s x
  | Event.deleteDone linkText x => deleteLinkDone env s linkText x

/-- A session of the dashboard page: the handlers run one after the other. -/
def run (env : Env) (s : DashState) : List Event → DashState × List Effect
  | [] => (s, [])
  | ev :: evs =>
    let (s1, es1) := step env s ev
    let (s2, es2) := run env s1 evs
    (s2, es1 ++ es2)

/-! ## Vocabulary of the properties -/

/-- The headers every signed request starts with, when its timestamp is the `k`-th
clock reading: the Authorization header if a token is stored, then the Hash over
`timestamp + "+" + url`, then the Timestamp. -/
def signedHeaders (env : Env) (k : Nat) (url : String) : List (String × String) :=
  authorizationHeader env.token ++
    [("Hash", (signWithPrivateKey env (toString (env.clock k) ++ "+" ++ url)).toStr),
     ("Timestamp", toString (env.clock k))]

/-- The handlers that start a signed operation: list files, read a viewable file,
download, upload, create a share link (followed by the listing of all links) and
delete a link. -/
def Event.startsOperation : Event → Bool
  | Event.load => true
  | Event.clickRead fileName => canViewFileContent fileName
  | Event.clickDownload _ => true
  | Event.clickShare _ => true
  | Event.clickDelete _ => true
  | Event.uploadRead _ _ => true
  | _ => false

/-- The request `r` carries the headers of a request signed at the `k`-th clock
reading, followed at most by the JSON content type. -/
def SignedAt (env : Env) (r : Request) (k : Nat) : Prop :=
  r.headers = signedHeaders env k r.url ∨
    r.headers = signedHeaders env k r.url ++ [("Content-Type", "application/json")]

/-- An environment for the examples: a signer that answers `false` without a key and
a transcript of key and message with one, a clock that starts at 1700000000000 and
advances one millisecond every second reading, and listings that do not parse. -/
def sampleEnv (token private_key : Option String) : Env :=
  { jsencrypt := fun key msg =>
      match key with
      | none => JSVal.bool false
      | some k => JSVal.str ("sig(" ++ k ++ "," ++ msg ++ ")"),
    clock := fun n => 1700000000000 + n / 2,
    parseFiles := fun _ => none,
    parseLinks := fun _ => none,
    token := token,
    private_key := private_key }

/-- The example environment with a clock that advances one millisecond at every
reading. -/
def tickingEnv (token private_key : Option String) : Env :=
  { sampleEnv token private_key with clock := fun n => 1700000000000 + n }

/-- The messages a handler puts before the user, in order: the texts of `alert`, of
the error box of the login and registration pages, and of the file-content view.
Console output is not among them. -/
def userMessages : List Effect → List String
  | [] => []
  | Effect.alert msg :: es => msg :: userMessages es
  | Effect.showError msg :: es => msg :: userMessages es
  | Effect.displayFileContent content :: es => content :: userMessages es
  | _ :: es => userMessages es

/-- The URLs a handler calls `fetch` on, in order. -/
def fetches : List Effect → List String
  | [] => []
  | Effect.fetch url _ :: es => url :: fetches es
  | _ :: es => fetches es

/-- The statement `message = timestamp + "+" + path` that every request function of
`dashboard.js` runs before signing. -/
def canonicalMessage (timestamp url : String) : String :=
  timestamp ++ "+" ++ url

/-- A string of decimal digits only. -/
def isDecimal (s : String) : Bool :=
  s.data.all Char.isDigit

/-- A settled login fetch that the promise chains of `loginUser` and
`loginUserAfterRegister` take to their success branch: an ok response whose body parses
to an object. -/
def loginSucceeded : FetchResult → Bool
  | FetchResult.response status (ParsedBody.obj _) => responseOk status
  | _ => false

/-- The example environment with listings that parse: one file `a.txt` with the two
share links `abc123` and `def456`. -/
def listingEnv (token private_key : Option String) : Env :=
  { sampleEnv token private_key with
    parseFiles := fun _ => some ["a.txt"],
    parseLinks := fun _ =>
      some [("abc123", { file_name := JSVal.str "a.txt" }),
            ("def456", { file_name := JSVal.str "a.txt" })] }

/-! ## Properties -/

theorem fdiv_thousand_eq_floor (ms : Int) : Int.fdiv ms 1000 = ⌊(ms : ℚ) / 1000⌋ := by
  have h : ((1000 : ℕ) : ℚ) = 1000 := by norm_num
  rw [← h, Rat.floor_intCast_div_natCast, Int.fdiv_eq_ediv ms (by norm_num)]
  rfl

theorem getItem_removeItem_self (st : LocalStorage) (key : String) :
    (st.removeItem key).getItem key = none := by
  unfold LocalStorage.getItem LocalStorage.removeItem
  rw [Option.map_eq_none', List.find?_eq_none]
  intro kv hkv
  simp only [List.mem_filter] at hkv
  simpa using hkv.2

theorem find?_filter_of_imp {α : Type} (p q : α → Bool) (l : List α)
    (h : ∀ x, p x = true → q x = true) : (l.filter q).find? p = l.find? p := by
  induction l with
  | nil => rfl
  | cons x l ih =>
    cases hq : q x with
    | true => simp only [List.filter_cons, hq, if_true, List.find?_cons, ih]
    | false =>
      have hp : p x = false := by
        cases hp : p x with
        | false => rfl
        | true => rw [h x hp] at hq; cases hq
      simp [List.filter_cons, hq, List.find?_cons, hp, ih]

theorem getItem_removeItem_of_ne (st : LocalStorage) (key other : String) (h : other ≠ key) :
    (st.removeItem other).getItem key = st.getItem key := by
  unfold LocalStorage.getItem LocalStorage.removeItem
  rw [find?_filter_of_imp]
  intro kv hkv
  have h1 : kv.1 = key := by simpa using hkv
  have h2 : ¬ kv.1 = other := fun h3 => h (h3 ▸ h1)
  simpa using h2

theorem getItem_setItem_self (st : LocalStorage) (key value : String) :
    (st.setItem key value).getItem key = some value := by
  simp [LocalStorage.getItem, LocalStorage.setItem]

theorem getItem_setItem_of_ne (st : LocalStorage) (key other value : String)
    (h : other ≠ key) : (st.setItem other value).getItem key = st.getItem key := by
  have h1 := getItem_removeItem_of_ne st key other h
  unfold LocalStorage.getItem at h1 ⊢
  simp [LocalStorage.setItem, List.find?_cons, h, h1]


/-! ### Page load (auth.js) -/

/-- C1: page-load routing equals the liveness rule. With no bearer token stored (absent
or the empty string) the handler only navigates to `/login.html` and decodes nothing;
with a stored token whose claims decode with expiry `exp`, and `now = ⌊ms / 1000⌋`, it
navigates exactly once, to `/dashboard.html` iff `exp ≥ now` and to `/login.html` iff
`now > exp`. -/
theorem authOnLoad_routing (decodeJwt : String → Option Claims) (ms : Int)
    (st : LocalStorage) :
    (truthyItem (st.getItem "jwtToken") = false →
      authOnLoad decodeJwt ms st = [Effect.navigate "/login.html"]) ∧
    (∀ token exp, st.getItem "jwtToken" = some token → token ≠ "" →
      decodeJwt token = some { exp := some exp } →
      (navigations (authOnLoad decodeJwt ms st) = ["/dashboard.html"] ↔
        exp ≥ ⌊(ms : ℚ) / 1000⌋) ∧
      (navigations (authOnLoad decodeJwt ms st) = ["/login.html"] ↔
        ⌊(ms : ℚ) / 1000⌋ > exp)) := by
  constructor
  · intro h
    unfold authOnLoad
    cases hg : st.getItem "jwtToken" with
    | none => rfl
    | some t =>
      rw [hg] at h
      simp [h]
  · intro token exp hg hne hd
    have ht : truthyItem (some token) = true := by simpa [truthyItem] using hne
    rw [← fdiv_thousand_eq_floor]
    unfold authOnLoad
    simp only [hg, ht, if_true, authenticateWithToken, hd]
    by_cases hlt : Int.fdiv ms 1000 - exp > 0
    · have h1 : Int.fdiv ms 1000 > exp := by omega
      have h2 : ¬ exp ≥ Int.fdiv ms 1000 := by omega
      simp [hlt, navigations, h1, h2]
    · have h1 : ¬ Int.fdiv ms 1000 > exp := by omega
      have h2 : exp ≥ Int.fdiv ms 1000 := by omega
      simp [hlt, navigations, h1, h2]

/-- Witness of C1: an empty store routes to the login page, and a token expiring at
second 100 routes to the dashboard at millisecond 100999. -/
theorem authOnLoad_routing_witness :
    authOnLoad (fun _ => none) 100999 [] = [Effect.navigate "/login.html"] ∧
    navigations (authOnLoad (fun _ => some { exp := some 100 }) 100999
      [("jwtToken", "tok1")]) = ["/dashboard.html"] :=
  ⟨(authOnLoad_routing (fun _ => none) 100999 []).1 (by decide),
   (((authOnLoad_routing (fun _ => some { exp := some 100 }) 100999
      [("jwtToken", "tok1")]).2 "tok1" 100 (by decide) (by decide) rfl).1).mpr
        (by rw [← fdiv_thousand_eq_floor]; decide)⟩

/-- C7, as stated, fails: with a stored token that `jose.decodeJwt` rejects, the
handler stops at the exception and navigates nowhere, so not to the login view. -/
theorem authOnLoad_undecodable_counterexample :
    authOnLoad (fun _ => none) 1700000000000 [("jwtToken", "not.a.jwt")] =
      [Effect.decodeJwt "not.a.jwt", Effect.uncaught "jose.decodeJwt"] ∧
    "/login.html" ∉
      navigations (authOnLoad (fun _ => none) 1700000000000 [("jwtToken", "not.a.jwt")]) := by
  decide

/-- C7, amended: a stored non-empty token that cannot be decoded makes the page-load
handler end in the decoder's uncaught exception, whatever the clock reads; it navigates
neither to the login view nor to the dashboard. -/
theorem authOnLoad_undecodable (decodeJwt : String → Option Claims) (ms : Int)
    (st : LocalStorage) (token : String) (hg : st.getItem "jwtToken" = some token)
    (hne : token ≠ "") (hd : decodeJwt token = none) :
    authOnLoad decodeJwt ms st =
      [Effect.decodeJwt token, Effect.uncaught "jose.decodeJwt"] ∧
    navigations (authOnLoad decodeJwt ms st) = [] := by
  have ht : truthyItem (some token) = true := by simpa [truthyItem] using hne
  unfold authOnLoad
  simp [hg, ht, authenticateWithToken, hd, navigations]

/-- Witness of the amended C7 on the token `not.a.jwt`. -/
theorem authOnLoad_undecodable_witness :
    authOnLoad (fun _ => none) 0 [("jwtToken", "not.a.jwt")] =
      [Effect.decodeJwt "not.a.jwt", Effect.uncaught "jose.decodeJwt"] ∧
    navigations (authOnLoad (fun _ => none) 0 [("jwtToken", "not.a.jwt")]) = [] :=
  authOnLoad_undecodable (fun _ => none) 0 [("jwtToken", "not.a.jwt")] "not.a.jwt"
    (by decide) (by decide) rfl

/-! ### Logout -/

/-- C5: logout clears the session unconditionally. From every store, after the logout
handler the store holds neither `jwtToken` nor `privateKey`; the handler is the two
removals followed by the navigation to `/login.html`, with no request in between or
at all; and the page-load check on the resulting store routes to the login view. -/
theorem logout_clears_session (env : Env) (s : DashState) (st : LocalStorage)
    (decodeJwt : String → Option Claims) (ms : Int) :
    (LocalStorage.apply st (step env s Event.clickLogout).2).getItem "jwtToken" = none ∧
    (LocalStorage.apply st (step env s Event.clickLogout).2).getItem "privateKey" = none ∧
    (step env s Event.clickLogout).2 =
      [Effect.removeItem "jwtToken", Effect.removeItem "privateKey",
       Effect.navigate "/login.html"] ∧
    sentRequests (step env s Event.clickLogout).2 = [] ∧
    navigations (step env s Event.clickLogout).2 = ["/login.html"] ∧
    authOnLoad decodeJwt ms (LocalStorage.apply st (step env s Event.clickLogout).2) =
      [Effect.navigate "/login.html"] := by
  have h1 : (LocalStorage.apply st (step env s Event.clickLogout).2).getItem "jwtToken"
      = none := by
    simp only [step, logout, LocalStorage.apply]
    rw [getItem_removeItem_of_ne _ _ _ (by decide), getItem_removeItem_self]
  refine ⟨h1, ?_, rfl, rfl, rfl, ?_⟩
  · simp only [step, logout, LocalStorage.apply]
    rw [getItem_removeItem_self]
  · unfold authOnLoad
    rw [h1]

/-! ### Effects of the dashboard handlers -/

theorem sentRequests_append (a b : List Effect) :
    sentRequests (a ++ b) = sentRequests a ++ sentRequests b := by
  induction a with
  | nil => rfl
  | cons e a ih => cases e <;> simp [sentRequests, ih]

theorem navigations_append (a b : List Effect) :
    navigations (a ++ b) = navigations a ++ navigations b := by
  induction a with
  | nil => rfl
  | cons e a ih => cases e <;> simp [navigations, ih]

theorem storageWrites_append (a b : List Effect) :
    storageWrites (a ++ b) = storageWrites a ++ storageWrites b := by
  induction a with
  | nil => rfl
  | cons e a ih => cases e <;> simp [storageWrites, ih]

theorem showShareLinksClick_fold (fileName : String) (ls : List (List (String × Link)))
    (acc : DashState × List Effect) :
    (ls.foldl
      (fun acc allLinks =>
        let (s1, es) :=
          displayShareLinksModal acc.1 (linksWithSameFileName allLinks fileName)
        (s1, acc.2 ++ es)) acc).2 =
      acc.2 ++ ls.map (fun l => Effect.displayShareLinks (linksWithSameFileName l fileName)) ∧
    (ls.foldl
      (fun acc allLinks =>
        let (s1, es) :=
          displayShareLinksModal acc.1 (linksWithSameFileName allLinks fileName)
        (s1, acc.2 ++ es)) acc).1 =
      { acc.1 with linkBoxes :=
          (((ls.map (fun l => linksWithSameFileName l fileName)).getLast?).getD
            acc.1.linkBoxes) } := by
  induction ls generalizing acc with
  | nil => simp
  | cons l ls ih =>
    simp only [List.foldl_cons, List.map_cons]
    rw [(ih _).1, (ih _).2]
    constructor
    · simp [displayShareLinksModal]
    · simp [displayShareLinksModal, List.getLast?_cons]

theorem showShareLinksClick_effects (s : DashState) (fileName : String) :
    (showShareLinksClick s fileName).2 =
      s.listeners.map (fun l => Effect.displayShareLinks (linksWithSameFileName l fileName)) := by
  unfold showShareLinksClick
  rw [(showShareLinksClick_fold fileName s.listeners (s, [])).1]
  rfl

theorem showShareLinksClick_state (s : DashState) (fileName : String) :
    (showShareLinksClick s fileName).1 =
      { s with linkBoxes :=
          (((s.listeners.map (fun l => linksWithSameFileName l fileName)).getLast?).getD
            s.linkBoxes) } := by
  unfold showShareLinksClick
  rw [(showShareLinksClick_fold fileName s.listeners (s, [])).2]

theorem sentRequests_displays (f : List (String × Link) → List (String × Link))
    (ls : List (List (String × Link))) :
    sentRequests (ls.map (fun l => Effect.displayShareLinks (f l))) = [] := by
  induction ls with
  | nil => rfl
  | cons l ls ih => simpa [sentRequests] using ih

theorem navigations_displays (f : List (String × Link) → List (String × Link))
    (ls : List (List (String × Link))) :
    navigations (ls.map (fun l => Effect.displayShareLinks (f l))) = [] := by
  induction ls with
  | nil => rfl
  | cons l ls ih => simpa [navigations] using ih

theorem storageWrites_displays (f : List (String × Link) → List (String × Link))
    (ls : List (List (String × Link))) :
    storageWrites (ls.map (fun l => Effect.displayShareLinks (f l))) = [] := by
  induction ls with
  | nil => rfl
  | cons l ls ih => simpa [storageWrites] using ih

theorem storageWrites_step (env : Env) (s : DashState) (ev : Event) :
    storageWrites (step env s ev).2 = [] := by
  cases ev with
  | clickShowShareLinks f =>
    simp only [step, showShareLinksClick_effects, storageWrites_displays]
  | clickRead f =>
    simp only [step, readFile]
    split <;> rfl
  | filesDone x =>
    simp only [step, fetchFilesDone]
    split
    · split <;> rfl
    · rfl
  | linksDone x =>
    simp only [step, fetchAllLinksDone]
    split
    · split <;> rfl
    · rfl
  | readDone x => simp only [step, readFileDone]; split <;> rfl
  | downloadDone f x => simp only [step, downloadFileDone]; split <;> rfl
  | shareDone x =>
    simp only [step, shareFileDone]
    split
    · rfl
    · split <;> rfl
  | uploadDone x =>
    simp only [step, uploadFileDone]
    split
    · rfl
    · split <;> rfl
  | deleteDone l x => simp only [step, deleteLinkDone]; split <;> rfl
  | _ => rfl

theorem storageWrites_run (env : Env) (s : DashState) (evs : List Event) :
    storageWrites (run env s evs).2 = [] := by
  induction evs generalizing s with
  | nil => rfl
  | cons ev evs ih =>
    simp only [run, storageWrites_append, storageWrites_step, ih, List.append_nil]

/-! ### Login and registration -/

theorem apply_of_no_storage_effect (st : LocalStorage) (es : List Effect)
    (h : ∀ e ∈ es, (∀ k v, e ≠ Effect.setItem k v) ∧ (∀ k, e ≠ Effect.removeItem k)) :
    LocalStorage.apply st es = st := by
  induction es with
  | nil => rfl
  | cons e es ih =>
    have he := h e (List.mem_cons_self _ _)
    have ih1 := ih (fun e1 h1 => h e1 (List.mem_cons_of_mem _ h1))
    cases e <;> simp_all [LocalStorage.apply]

theorem loginUserSettled_failure (status : Nat) (body : ParsedBody)
    (h : responseOk status = false) :
    ∃ message, loginUserSettled (FetchResult.response status body) =
      handleLoginError message := by
  unfold loginUserSettled
  simp only [h]
  by_cases h400 : status = 400
  · cases body with
    | unreadable message => exact ⟨message, by simp [h400]⟩
    | obj errorMsg => exact ⟨_, by simp [h400]; rfl⟩
  · exact ⟨genericError, by simp [h400]⟩

theorem registerUserSettled_failure (r : FetchResult) (formData : List (String × String))
    (h : registrationOk r = false) :
    ∃ message, registerUserSettled r formData = handleRegistrationError message := by
  cases r with
  | rejected message => exact ⟨message, rfl⟩
  | response status body =>
    have h1 : responseOk status = false := h
    unfold registerUserSettled
    simp only [h1]
    by_cases h422 : status = 422
    · exact ⟨_, by simp [h422]; rfl⟩
    · by_cases h4 : status = 409 ∨ status = 400
      · cases body with
        | unreadable message => exact ⟨message, by simp [h422, h4]⟩
        | obj errorMsg => exact ⟨_, by simp [h422, h4]; rfl⟩
      · exact ⟨genericError, by simp [h422, h4]⟩

theorem registerUserSettled_ok (r : FetchResult) (formData : List (String × String))
    (h : registrationOk r = true) :
    registerUserSettled r formData = loginUserAfterRegister formData := by
  cases r with
  | rejected message => cases h
  | response status body =>
    have h1 : responseOk status = true := h
    simp [registerUserSettled, h1]

theorem apply_handleLoginError (st : LocalStorage) (message : String) :
    LocalStorage.apply st (handleLoginError message) = st ∧
    navigations (handleLoginError message) = [] := ⟨rfl, rfl⟩

theorem apply_handleRegistrationError (st : LocalStorage) (message : String) :
    LocalStorage.apply st (handleRegistrationError message) = st ∧
    navigations (handleRegistrationError message) = [] := ⟨rfl, rfl⟩

/-- C4: the session store is written only by a successful login. An ok login response
with body `{private_key: p, token: t}`, direct or after a successful registration,
writes `privateKey = p` and then `jwtToken = t` and only then navigates to the
dashboard; a non-ok or rejected login, a failed registration, and a non-ok login after
a registration leave the store as it was and navigate nowhere; the page-load check and
the dashboard handlers never call `setItem`. -/
theorem session_written_only_by_login (st : LocalStorage) :
    (∀ status data p t, responseOk status = true →
      getField data "private_key" = JSVal.str p → getField data "token" = JSVal.str t →
      loginUserSettled (FetchResult.response status (ParsedBody.obj data)) =
        [Effect.setItem "privateKey" p, Effect.setItem "jwtToken" t,
         Effect.navigate "dashboard.html"] ∧
      (LocalStorage.apply st (loginUserSettled
        (FetchResult.response status (ParsedBody.obj data)))).getItem "privateKey" = some p ∧
      (LocalStorage.apply st (loginUserSettled
        (FetchResult.response status (ParsedBody.obj data)))).getItem "jwtToken" = some t) ∧
    (∀ r1 status data p t formData username, registrationOk r1 = true →
      responseOk status = true →
      getField data "private_key" = JSVal.str p → getField data "token" = JSVal.str t →
      registerThenLogin r1 (FetchResult.response status (ParsedBody.obj data))
          formData username =
        [Effect.fetch "https://localhost:27464/user/login" formData,
         Effect.setItem "privateKey" p, Effect.setItem "jwtToken" t,
         Effect.navigate ("dashboard.html?username=" ++ username)] ∧
      (LocalStorage.apply st (registerThenLogin r1
        (FetchResult.response status (ParsedBody.obj data)) formData username)).getItem
          "privateKey" = some p ∧
      (LocalStorage.apply st (registerThenLogin r1
        (FetchResult.response status (ParsedBody.obj data)) formData username)).getItem
          "jwtToken" = some t) ∧
    (∀ status body, responseOk status = false →
      LocalStorage.apply st (loginUserSettled (FetchResult.response status body)) = st ∧
      navigations (loginUserSettled (FetchResult.response status body)) = []) ∧
    (∀ message,
      LocalStorage.apply st (loginUserSettled (FetchResult.rejected message)) = st ∧
      navigations (loginUserSettled (FetchResult.rejected message)) = []) ∧
    (∀ r1 r2 formData username, registrationOk r1 = false →
      LocalStorage.apply st (registerThenLogin r1 r2 formData username) = st ∧
      navigations (registerThenLogin r1 r2 formData username) = []) ∧
    (∀ r1 status body formData username, responseOk status = false →
      LocalStorage.apply st
        (registerThenLogin r1 (FetchResult.response status body) formData username) = st ∧
      navigations
        (registerThenLogin r1 (FetchResult.response status body) formData username) = []) ∧
    (∀ decodeJwt ms st1, storageWrites (authOnLoad decodeJwt ms st1) = []) ∧
    (∀ env s evs, storageWrites (run env s evs).2 = []) := by
  refine ⟨?_, ?_, ?_, ?_, ?_, ?_, ?_, storageWrites_run⟩
  · intro status data p t hok hp ht
    have h : loginUserSettled (FetchResult.response status (ParsedBody.obj data)) =
        [Effect.setItem "privateKey" p, Effect.setItem "jwtToken" t,
         Effect.navigate "dashboard.html"] := by
      simp [loginUserSettled, hok, hp, ht, JSVal.toStr]
    rw [h]
    refine ⟨rfl, ?_, ?_⟩
    · simp only [LocalStorage.apply]
      rw [getItem_setItem_of_ne _ _ _ _ (by decide), getItem_setItem_self]
    · simp only [LocalStorage.apply]
      rw [getItem_setItem_self]
  · intro r1 status data p t formData username h1 hok hp ht
    have h : registerThenLogin r1 (FetchResult.response status (ParsedBody.obj data))
          formData username =
        [Effect.fetch "https://localhost:27464/user/login" formData,
         Effect.setItem "privateKey" p, Effect.setItem "jwtToken" t,
         Effect.navigate ("dashboard.html?username=" ++ username)] := by
      simp [registerThenLogin, registerUserSettled_ok r1 formData h1, h1,
        loginUserAfterRegister, loginUserAfterRegisterSettled, hok, hp, ht, JSVal.toStr]
    rw [h]
    refine ⟨rfl, ?_, ?_⟩
    · simp only [LocalStorage.apply]
      rw [getItem_setItem_of_ne _ _ _ _ (by decide), getItem_setItem_self]
    · simp only [LocalStorage.apply]
      rw [getItem_setItem_self]
  · intro status body hok
    obtain ⟨message, h⟩ := loginUserSettled_failure status body hok
    rw [h]
    exact apply_handleLoginError st message
  · intro message
    exact apply_handleLoginError st message
  · intro r1 r2 formData username h1
    obtain ⟨message, h⟩ := registerUserSettled_failure r1 formData h1
    simp only [registerThenLogin, h, h1, Bool.false_eq_true, if_false, List.append_nil]
    exact apply_handleRegistrationError st message
  · intro r1 status body formData username hok
    cases h1 : registrationOk r1 with
    | false =>
      obtain ⟨message, h⟩ := registerUserSettled_failure r1 formData h1
      simp only [registerThenLogin, h, h1, Bool.false_eq_true, if_false, List.append_nil]
      exact apply_handleRegistrationError st message
    | true =>
      simp only [registerThenLogin, registerUserSettled_ok r1 formData h1, h1, if_true,
        loginUserAfterRegister, loginUserAfterRegisterSettled, hok, Bool.false_eq_true,
        if_false]
      exact ⟨rfl, rfl⟩
  · intro decodeJwt ms st1
    unfold authOnLoad
    cases hg : st1.getItem "jwtToken" with
    | none => rfl
    | some t =>
      simp only
      split
      · unfold authenticateWithToken
        cases hd : decodeJwt t with
        | none => rfl
        | some claims =>
          cases he : claims.exp with
          | none => simp [he, storageWrites]
          | some exp =>
            simp only [he]
            split <;> rfl
      · rfl

/-- Witness of C4 on the response `{private_key: "pk1", token: "tok1"}` with status 200
and on a login answered with status 401, from an empty store. -/
theorem session_written_only_by_login_witness :
    (LocalStorage.apply [] (loginUserSettled (FetchResult.response 200
      (ParsedBody.obj [("private_key", JSVal.str "pk1"), ("token", JSVal.str "tok1")])))
      ).getItem "jwtToken" = some "tok1" ∧
    LocalStorage.apply [] (loginUserSettled
      (FetchResult.response 401 (ParsedBody.unreadable ""))) = [] :=
  ⟨((session_written_only_by_login []).1 200
      [("private_key", JSVal.str "pk1"), ("token", JSVal.str "tok1")] "pk1" "tok1"
      (by decide) (by decide) (by decide)).2.2,
   ((session_written_only_by_login []).2.2.1 401 (ParsedBody.unreadable "")
      (by decide)).1⟩

/-! ### Share-link filtering -/

theorem strictEqStr_iff (v : JSVal) (s : String) :
    v.strictEqStr s = true ↔ v = JSVal.str s := by
  cases v <;> simp [JSVal.strictEqStr]

theorem count_eq_one_of_nodup {α : Type} [BEq α] [LawfulBEq α] {l : List α} {a : α}
    (hn : l.Nodup) (ha : a ∈ l) : l.count a = 1 := by
  induction l with
  | nil => cases ha
  | cons x l ih =>
    rw [List.nodup_cons] at hn
    rw [List.count_cons]
    by_cases hx : a = x
    · subst hx
      rw [List.count_eq_zero_of_not_mem hn.1]
      simp
    · have hmem : a ∈ l := by
        rcases List.mem_cons.mp ha with h | h
        · exact absurd h hx
        · exact h
      rw [ih hn.2 hmem]
      have : (x == a) = false := by
        simpa using fun h => hx h.symm
      simp [this]

/-- C6: share-link filtering. For every link mapping, given by its entries in iteration
order, and every target file name, the list handed to the share-links view holds
exactly the entries whose `file_name` is strictly equal to the target: an entry is in
the list iff it is in the mapping and matches; each entry occurs as often as in the
mapping, so exactly once when the ids of the mapping are distinct, and never when it
does not match; the list is a sublist of the entries, so their relative order is kept;
and this list is what the click listener passes to `displayShareLinksModal`. -/
theorem linksWithSameFileName_spec (allLinks : List (String × Link)) (fileName : String)
    (s : DashState) :
    (∀ e, e ∈ linksWithSameFileName allLinks fileName ↔
      e ∈ allLinks ∧ e.2.file_name = JSVal.str fileName) ∧
    (∀ e, (linksWithSameFileName allLinks fileName).count e =
      if e.2.file_name = JSVal.str fileName then allLinks.count e else 0) ∧
    ((allLinks.map Prod.fst).Nodup → ∀ e ∈ allLinks,
      e.2.file_name = JSVal.str fileName →
      (linksWithSameFileName allLinks fileName).count e = 1) ∧
    (linksWithSameFileName allLinks fileName).Sublist allLinks ∧
    (showShareLinksClick { s with listeners := [allLinks] } fileName).2 =
      [Effect.displayShareLinks (linksWithSameFileName allLinks fileName)] := by
  have hcount : ∀ e, (linksWithSameFileName allLinks fileName).count e =
      if e.2.file_name = JSVal.str fileName then allLinks.count e else 0 := by
    intro e
    unfold linksWithSameFileName
    by_cases hm : e.2.file_name = JSVal.str fileName
    · rw [if_pos hm, List.count_filter]
      exact (strictEqStr_iff _ _).mpr hm
    · rw [if_neg hm]
      apply List.count_eq_zero_of_not_mem
      intro hmem
      exact hm ((strictEqStr_iff _ _).mp (List.mem_filter.mp hmem).2)
  refine ⟨?_, hcount, ?_, ?_, ?_⟩
  · intro e
    simp [linksWithSameFileName, List.mem_filter, strictEqStr_iff]
  · intro hnd e he hm
    rw [hcount e, if_pos hm]
    have hn : allLinks.Nodup := List.Nodup.of_map Prod.fst hnd
    exact count_eq_one_of_nodup hn he
  · exact List.filter_sublist _
  · rw [showShareLinksClick_effects]
    rfl

/-- Witness of C6 on a mapping of three links, two of them on `a.txt`. -/
theorem linksWithSameFileName_spec_witness :
    (linksWithSameFileName
      [("l1", { file_name := JSVal.str "a.txt" }), ("l2", { file_name := JSVal.str "b.txt" }),
       ("l3", { file_name := JSVal.str "a.txt" })] "a.txt").count
      ("l3", { file_name := JSVal.str "a.txt" }) = 1 :=
  (linksWithSameFileName_spec
    [("l1", { file_name := JSVal.str "a.txt" }), ("l2", { file_name := JSVal.str "b.txt" }),
     ("l3", { file_name := JSVal.str "a.txt" })] "a.txt" DashState.init).2.2.1
    (by decide) ("l3", { file_name := JSVal.str "a.txt" }) (by decide) (by decide)

/-! ### Signed requests -/

theorem fetchFiles_eq (env : Env) (s : DashState) :
    (fetchFiles env s).2 =
      [Effect.send { method := "GET", url := "https://localhost:8080/files",
                     headers := signedHeaders env s.reads "https://localhost:8080/files",
                     body := Body.empty }] ∧
    (fetchFiles env s).1.reads = s.reads + 1 := ⟨rfl, rfl⟩

theorem fetchAllLinks_eq (env : Env) (s : DashState) :
    (fetchAllLinks env s).2 =
      [Effect.send { method := "GET", url := "https://localhost:8080/links",
                     headers := signedHeaders env s.reads "https://localhost:8080/links",
                     body := Body.empty }] ∧
    (fetchAllLinks env s).1.reads = s.reads + 1 := ⟨rfl, rfl⟩

theorem getFile_eq (env : Env) (s : DashState) (fileName : String) :
    (getFile env s fileName).2 =
      [Effect.send
        { method := "GET",
          url := "https://localhost:8080/files/" ++ encodeURIComponent fileName,
          headers := signedHeaders env s.reads
            ("https://localhost:8080/files/" ++ encodeURIComponent fileName),
          body := Body.empty }] ∧
    (getFile env s fileName).1.reads = s.reads + 1 := ⟨rfl, rfl⟩

theorem uploadFile_eq (env : Env) (s : DashState) (fileName contents : String) :
    (uploadFile env s fileName contents).2 =
      [Effect.send
        { method := "PUT",
          url := "https://localhost:8080/files/" ++ encodeURIComponent fileName,
          headers := signedHeaders env s.reads
            ("https://localhost:8080/files/" ++ encodeURIComponent fileName),
          body := Body.form contents }] ∧
    (uploadFile env s fileName contents).1.reads = s.reads + 1 := ⟨rfl, rfl⟩

theorem deleteLink_eq (env : Env) (s : DashState) (linkText : String) :
    (deleteLink env s linkText).2 =
      [Effect.consoleLog (toString (env.clock s.reads) ++ "+" ++
          ("https://localhost:27401/link/" ++ encodeURIComponent linkText)),
       Effect.send
        { method := "DELETE",
          url := "https://localhost:27401/link/" ++ encodeURIComponent linkText,
          headers := signedHeaders env s.reads
            ("https://localhost:27401/link/" ++ encodeURIComponent linkText),
          body := Body.empty }] ∧
    (deleteLink env s linkText).1.reads = s.reads + 1 := ⟨rfl, rfl⟩

theorem shareFile_eq (env : Env) (s : DashState) (fileName : String) :
    (shareFile env s fileName).2 =
      [Effect.send
        { method := "PUT", url := "https://localhost:8080/link",
          headers := signedHeaders env s.reads "https://localhost:8080/link" ++
            [("Content-Type", "application/json")],
          body := Body.json fileName },
       Effect.send
        { method := "GET", url := "https://localhost:8080/links",
          headers := signedHeaders env (s.reads + 1) "https://localhost:8080/links",
          body := Body.empty }] ∧
    (shareFile env s fileName).1.reads = s.reads + 2 := by
  constructor
  · simp [shareFile, fetchAllLinks, getCurrentTimestamp, signedHeaders, JSVal.toStr]
  · rfl

theorem step_signed (env : Env) (s : DashState) (ev : Event) :
    ∃ n, (step env s ev).1.reads = s.reads + n ∧
      List.Forall₂ (SignedAt env) (sentRequests (step env s ev).2) (List.range' s.reads n) := by
  cases ev with
  | load =>
    refine ⟨1, (fetchFiles_eq env s).2, ?_⟩
    simp [step, (fetchFiles_eq env s).1, sentRequests, SignedAt, List.range', signedHeaders,
      JSVal.toStr]
  | clickRead f =>
    by_cases h : canViewFileContent f = true
    · refine ⟨1, by simp [step, readFile, h, (getFile_eq env s f).2], ?_⟩
      simp [step, readFile, h, (getFile_eq env s f).1, sentRequests, SignedAt, List.range',
        signedHeaders, JSVal.toStr]
    · refine ⟨0, by simp [step, readFile, h], ?_⟩
      simp [step, readFile, h, displayFileContentInModal, sentRequests]
  | clickDownload f =>
    refine ⟨1, (getFile_eq env s f).2, ?_⟩
    simp [step, downloadFile, (getFile_eq env s f).1, sentRequests, SignedAt, List.range',
      signedHeaders, JSVal.toStr]
  | clickShare f =>
    refine ⟨2, (shareFile_eq env s f).2, ?_⟩
    simp [step, (shareFile_eq env s f).1, sentRequests, SignedAt, List.range', signedHeaders,
      JSVal.toStr]
  | clickShowShareLinks f =>
    refine ⟨0, by simp [step, showShareLinksClick_state], ?_⟩
    simp [step, showShareLinksClick_effects, sentRequests_displays]
  | clickDelete l =>
    refine ⟨1, (deleteLink_eq env s l).2, ?_⟩
    simp [step, (deleteLink_eq env s l).1, sentRequests, SignedAt, List.range', signedHeaders,
      JSVal.toStr]
  | clickUploadNoFile => exact ⟨0, rfl, by simp [step, sentRequests]⟩
  | uploadRead f c =>
    refine ⟨1, (uploadFile_eq env s f c).2, ?_⟩
    simp [step, (uploadFile_eq env s f c).1, sentRequests, SignedAt, List.range',
      signedHeaders, JSVal.toStr]
  | clickLogout => exact ⟨0, rfl, by simp [step, logout, sentRequests]⟩
  | filesDone x =>
    by_cases h : x.status = 200
    · cases hp : env.parseFiles x.responseText with
      | none => exact ⟨0, by simp [step, fetchFilesDone, h, hp],
          by simp [step, fetchFilesDone, h, hp, sentRequests]⟩
      | some fileList =>
        refine ⟨1, by simp [step, fetchFilesDone, h, hp, (fetchAllLinks_eq env _).2], ?_⟩
        simp [step, fetchFilesDone, h, hp, (fetchAllLinks_eq env _).1, sentRequests,
          SignedAt, List.range', signedHeaders, JSVal.toStr]
    · exact ⟨0, by simp [step, fetchFilesDone, h],
        by simp [step, fetchFilesDone, h, sentRequests]⟩
  | linksDone x =>
    by_cases h : x.status = 200
    · cases hp : env.parseLinks x.responseText with
      | none => exact ⟨0, by simp [step, fetchAllLinksDone, h, hp],
          by simp [step, fetchAllLinksDone, h, hp, sentRequests]⟩
      | some allLinks => exact ⟨0, by simp [step, fetchAllLinksDone, h, hp],
          by simp [step, fetchAllLinksDone, h, hp, sentRequests]⟩
    · exact ⟨0, by simp [step, fetchAllLinksDone, h],
        by simp [step, fetchAllLinksDone, h, sentRequests]⟩
  | readDone x =>
    refine ⟨0, rfl, ?_⟩
    by_cases h : x.status = 200 <;>
      simp [step, readFileDone, h, displayFileContentInModal, sentRequests]
  | downloadDone f x =>
    refine ⟨0, rfl, ?_⟩
    by_cases h : x.status = 200 <;> simp [step, downloadFileDone, h, sentRequests]
  | shareDone x =>
    refine ⟨0, rfl, ?_⟩
    by_cases h : x.status = 200
    · simp [step, shareFileDone, h, sentRequests]
    · by_cases h3 : x.status = 403 <;> simp [step, shareFileDone, h, h3, sentRequests]
  | uploadDone x =>
    by_cases h : x.status = 200
    · refine ⟨1, by simp [step, uploadFileDone, h, (fetchFiles_eq env s).2], ?_⟩
      simp [step, uploadFileDone, h, (fetchFiles_eq env s).1, sentRequests, SignedAt,
        signedHeaders, JSVal.toStr,
        List.range']
    · refine ⟨0, ?_, ?_⟩
      · by_cases h3 : x.status = 403 <;> simp [step, uploadFileDone, h, h3]
      · by_cases h3 : x.status = 403 <;> simp [step, uploadFileDone, h, h3, sentRequests]
  | deleteDone l x =>
    by_cases h : x.status = 200
    · refine ⟨1, by simp [step, deleteLinkDone, h, removeDeletedLinkFromModal,
        (fetchFiles_eq env _).2], ?_⟩
      simp [step, deleteLinkDone, h, removeDeletedLinkFromModal, (fetchFiles_eq env _).1,
        sentRequests, SignedAt, List.range', signedHeaders, JSVal.toStr]
    · exact ⟨0, by simp [step, deleteLinkDone, h],
        by simp [step, deleteLinkDone, h, sentRequests]⟩

theorem run_signed (env : Env) (s : DashState) (evs : List Event) :
    ∃ n, (run env s evs).1.reads = s.reads + n ∧
      List.Forall₂ (SignedAt env) (sentRequests (run env s evs).2) (List.range' s.reads n) := by
  induction evs generalizing s with
  | nil => exact ⟨0, rfl, by simp [run, sentRequests]⟩
  | cons ev evs ih =>
    obtain ⟨n1, h1, f1⟩ := step_signed env s ev
    obtain ⟨n2, h2, f2⟩ := ih (step env s ev).1
    refine ⟨n2 + n1, ?_, ?_⟩
    · simp only [run, h2, h1]
      omega
    · simp only [run, sentRequests_append]
      rw [← List.range'_append_1]
      rw [h1] at f2
      exact List.rel_append f1 f2

theorem forall₂_exists_right {α β : Type} {R : α → β → Prop} {l1 : List α} {l2 : List β}
    (h : List.Forall₂ R l1 l2) : ∀ a ∈ l1, ∃ b ∈ l2, R a b := by
  induction h with
  | nil => intro a ha; cases ha
  | cons hab _ ih =>
    intro a ha
    rcases List.mem_cons.mp ha with h1 | h1
    · subst h1
      exact ⟨_, List.mem_cons_self _ _, hab⟩
    · obtain ⟨b, hb, hr⟩ := ih a h1
      exact ⟨b, List.mem_cons_of_mem _ hb, hr⟩

theorem forall₂_map_eq {α β γ : Type} {R : α → β → Prop} (f : α → γ) (g : β → γ)
    (hR : ∀ a b, R a b → f a = g b) {l1 : List α} {l2 : List β}
    (h : List.Forall₂ R l1 l2) : l1.map f = l2.map g := by
  induction h with
  | nil => rfl
  | cons hab _ ih => simp [hR _ _ hab, ih]

theorem header_authorization_signed (token : Option String) (rest : List (String × String))
    (hrest : ∀ h ∈ rest, h.1 ≠ "Authorization") :
    (List.find? (fun h => h.1 == "Authorization")
      (authorizationHeader token ++ rest)).map Prod.snd =
      if truthyItem token then token.map (fun t => "Bearer " ++ t) else none := by
  have hnone : List.find? (fun h => h.1 == "Authorization") rest = none := by
    rw [List.find?_eq_none]
    intro h hh
    simpa using hrest h hh
  cases token with
  | none => simp [authorizationHeader, truthyItem, hnone]
  | some t =>
    by_cases ht : truthyItem (some t) = true
    · simp [authorizationHeader, ht]
    · simp [authorizationHeader, ht, hnone]

theorem find?_skip_authorization (token : Option String) (name : String)
    (hname : name ≠ "Authorization") (rest : List (String × String)) :
    List.find? (fun h => h.1 == name) (authorizationHeader token ++ rest) =
      List.find? (fun h => h.1 == name) rest := by
  cases token with
  | none => simp [authorizationHeader]
  | some t =>
    by_cases ht : truthyItem (some t) = true
    · have : ¬ "Authorization" = name := fun h => hname h.symm
      simp [authorizationHeader, ht, List.find?_cons, this]
    · simp [authorizationHeader, ht]

theorem SignedAt.headers_spec {env : Env} {r : Request} {k : Nat} (h : SignedAt env r k) :
    r.header "Timestamp" = some (toString (env.clock k)) ∧
    r.header "Hash" =
      some (signWithPrivateKey env (toString (env.clock k) ++ "+" ++ r.url)).toStr ∧
    r.header "Authorization" =
      (if truthyItem env.token then env.token.map (fun t => "Bearer " ++ t) else none) := by
  unfold Request.header
  rcases h with h | h <;> rw [h] <;> unfold signedHeaders
  · refine ⟨?_, ?_, ?_⟩
    · rw [find?_skip_authorization _ _ (by decide)]
      simp [List.find?_cons]
    · rw [find?_skip_authorization _ _ (by decide)]
      simp [List.find?_cons]
    · apply header_authorization_signed
      intro h hh
      simp at hh
      rcases hh with hh | hh <;> simp [hh]
  · rw [List.append_assoc]
    refine ⟨?_, ?_, ?_⟩
    · rw [find?_skip_authorization _ _ (by decide)]
      simp [List.find?_cons]
    · rw [find?_skip_authorization _ _ (by decide)]
      simp [List.find?_cons]
    · apply header_authorization_signed
      intro h hh
      simp at hh
      rcases hh with hh | hh | hh <;> simp [hh]

theorem step_globals (env : Env) (s : DashState) (g : Globals) (ev : Event) :
    (step env { s with globals := g } ev).2 = (step env s ev).2 ∧
    ∃ g1, (step env { s with globals := g } ev).1 =
      { (step env s ev).1 with globals := g1 } := by
  cases ev with
  | load => exact ⟨rfl, _, rfl⟩
  | clickRead f =>
    by_cases h : canViewFileContent f = true
    · simp only [step, readFile, h, Bool.not_true, Bool.false_eq_true, if_false]
      exact ⟨rfl, _, rfl⟩
    · simp only [step, readFile, h, Bool.not_false, if_true]
      exact ⟨trivial, _, rfl⟩
  | clickDownload f => exact ⟨rfl, _, rfl⟩
  | clickShare f => exact ⟨rfl, _, rfl⟩
  | clickShowShareLinks f =>
    simp only [step, showShareLinksClick_effects, showShareLinksClick_state]
    exact ⟨trivial, _, rfl⟩
  | clickDelete l => exact ⟨rfl, _, rfl⟩
  | clickUploadNoFile => exact ⟨rfl, _, rfl⟩
  | uploadRead f c => exact ⟨rfl, _, rfl⟩
  | clickLogout => exact ⟨rfl, _, rfl⟩
  | filesDone x =>
    simp only [step, fetchFilesDone]
    split
    · split
      · exact ⟨rfl, _, rfl⟩
      · exact ⟨rfl, _, rfl⟩
    · exact ⟨rfl, _, rfl⟩
  | linksDone x =>
    simp only [step, fetchAllLinksDone]
    split
    · split
      · exact ⟨rfl, _, rfl⟩
      · exact ⟨rfl, _, rfl⟩
    · exact ⟨rfl, _, rfl⟩
  | readDone x => exact ⟨rfl, _, rfl⟩
  | downloadDone f x => exact ⟨rfl, _, rfl⟩
  | shareDone x => exact ⟨rfl, _, rfl⟩
  | uploadDone x =>
    simp only [step, uploadFileDone]
    split
    · exact ⟨rfl, _, rfl⟩
    · split
      · exact ⟨rfl, _, rfl⟩
      · exact ⟨rfl, _, rfl⟩
  | deleteDone l x =>
    simp only [step, deleteLinkDone]
    split
    · exact ⟨rfl, _, rfl⟩
    · exact ⟨rfl, _, rfl⟩

theorem run_globals (env : Env) (s : DashState) (g : Globals) (evs : List Event) :
    (run env { s with globals := g } evs).2 = (run env s evs).2 ∧
    ∃ g1, (run env { s with globals := g } evs).1 =
      { (run env s evs).1 with globals := g1 } := by
  induction evs generalizing s g with
  | nil => exact ⟨rfl, g, rfl⟩
  | cons ev evs ih =>
    obtain ⟨h1, g1, h2⟩ := step_globals env s g ev
    obtain ⟨h3, g2, h4⟩ := ih (step env s ev).1 g1
    simp only [run, h1, h2, h3, h4]
    exact ⟨trivial, g2, rfl⟩

/-- C2: in every session of the dashboard, each request sent carries a Hash header equal
to `signWithPrivateKey(T + "+" + U)`, with `T` the value of its own Timestamp header and
`U` the URL it is opened on. Method and body are no input of the signed message: two
requests with the same Timestamp and URL carry the same Hash. The values found in the
variables `message`, `hash`, `timestamp` and `path` when a session starts change nothing
in what the session does. -/
theorem hash_signs_timestamp_and_url (env : Env) (s : DashState) (evs : List Event) :
    (∀ r ∈ sentRequests (run env s evs).2, ∃ T, r.header "Timestamp" = some T ∧
      r.header "Hash" = some (signWithPrivateKey env (T ++ "+" ++ r.url)).toStr) ∧
    (∀ r1 ∈ sentRequests (run env s evs).2, ∀ r2 ∈ sentRequests (run env s evs).2,
      r1.header "Timestamp" = r2.header "Timestamp" → r1.url = r2.url →
      r1.header "Hash" = r2.header "Hash") ∧
    (∀ g, (run env { s with globals := g } evs).2 = (run env s evs).2) := by
  have key : ∀ r ∈ sentRequests (run env s evs).2, ∃ T, r.header "Timestamp" = some T ∧
      r.header "Hash" = some (signWithPrivateKey env (T ++ "+" ++ r.url)).toStr := by
    intro r hr
    obtain ⟨n, _, hf⟩ := run_signed env s evs
    obtain ⟨k, _, hk⟩ := forall₂_exists_right hf r hr
    exact ⟨_, hk.headers_spec.1, hk.headers_spec.2.1⟩
  refine ⟨key, ?_, fun g => (run_globals env s g evs).1⟩
  intro r1 h1 r2 h2 ht hu
  obtain ⟨T1, ht1, hh1⟩ := key r1 h1
  obtain ⟨T2, ht2, hh2⟩ := key r2 h2
  have hT : T1 = T2 := by
    rw [ht1, ht2] at ht
    exact Option.some.inj ht
  rw [hh1, hh2, hT, hu]

/-- Witness of C2: the PUT of a share-link creation, in a session started with stale
values in the four variables, is signed over its own timestamp and URL. -/
theorem hash_signs_timestamp_and_url_witness :
    ({ method := "PUT", url := "https://localhost:8080/link",
       headers := [("Authorization", "Bearer tok1"),
         ("Hash", "sig(pk1,1700000000000+https://localhost:8080/link)"),
         ("Timestamp", "1700000000000"), ("Content-Type", "application/json")],
       body := Body.json "a.txt" } : Request) ∈
      sentRequests (run (sampleEnv (some "tok1") (some "pk1"))
        { DashState.init with globals :=
            { message := JSVal.str "old", hash := JSVal.str "old",
              timestamp := JSVal.str "1", path := JSVal.str "/old" } }
        [Event.clickShare "a.txt"]).2 ∧
    ({ method := "PUT", url := "https://localhost:8080/link",
       headers := [("Authorization", "Bearer tok1"),
         ("Hash", "sig(pk1,1700000000000+https://localhost:8080/link)"),
         ("Timestamp", "1700000000000"), ("Content-Type", "application/json")],
       body := Body.json "a.txt" } : Request).header "Hash" =
      some (signWithPrivateKey (sampleEnv (some "tok1") (some "pk1"))
        ("1700000000000" ++ "+" ++ "https://localhost:8080/link")).toStr := by
  obtain ⟨T, h1, h2⟩ :=
    (hash_signs_timestamp_and_url (sampleEnv (some "tok1") (some "pk1"))
      { DashState.init with globals :=
          { message := JSVal.str "old", hash := JSVal.str "old",
            timestamp := JSVal.str "1", path := JSVal.str "/old" } }
      [Event.clickShare "a.txt"]).1
      { method := "PUT", url := "https://localhost:8080/link",
        headers := [("Authorization", "Bearer tok1"),
          ("Hash", "sig(pk1,1700000000000+https://localhost:8080/link)"),
          ("Timestamp", "1700000000000"), ("Content-Type", "application/json")],
        body := Body.json "a.txt" } (by decide)
  have hT : T = "1700000000000" := (Option.some.inj h1).symm
  subst hT
  exact ⟨by decide, h2⟩

theorem startsOperation_sends (env : Env) (s : DashState) (ev : Event)
    (h : ev.startsOperation = true) : sentRequests (step env s ev).2 ≠ [] := by
  cases ev with
  | load => simp [step, (fetchFiles_eq env s).1, sentRequests]
  | clickRead f =>
    have h1 : canViewFileContent f = true := h
    simp [step, readFile, h1, (getFile_eq env s f).1, sentRequests]
  | clickDownload f => simp [step, downloadFile, (getFile_eq env s f).1, sentRequests]
  | clickShare f => simp [step, (shareFile_eq env s f).1, sentRequests]
  | clickDelete l => simp [step, (deleteLink_eq env s l).1, sentRequests]
  | uploadRead f c => simp [step, (uploadFile_eq env s f c).1, sentRequests]
  | _ => cases h

theorem step_signed_mem (env : Env) (s : DashState) (ev : Event) :
    ∀ r ∈ sentRequests (step env s ev).2, ∃ k, SignedAt env r k := by
  intro r hr
  obtain ⟨n, _, hf⟩ := step_signed env s ev
  obtain ⟨k, _, hk⟩ := forall₂_exists_right hf r hr
  exact ⟨k, hk⟩

theorem run_signed_mem (env : Env) (s : DashState) (evs : List Event) :
    ∀ r ∈ sentRequests (run env s evs).2, ∃ k, SignedAt env r k := by
  intro r hr
  obtain ⟨n, _, hf⟩ := run_signed env s evs
  obtain ⟨k, _, hk⟩ := forall₂_exists_right hf r hr
  exact ⟨k, hk⟩

/-- C3: in every session of the dashboard, each request sent carries
`Authorization: Bearer <token>` when a non-empty token was read from the store and no
Authorization header otherwise, and always a Hash and a Timestamp header; and when no
token is stored, every handler that starts an operation still sends its request. -/
theorem authorization_iff_token (env : Env) (s : DashState) (evs : List Event) :
    (∀ r ∈ sentRequests (run env s evs).2,
      (∀ t, env.token = some t → t ≠ "" →
        r.header "Authorization" = some ("Bearer " ++ t)) ∧
      (truthyItem env.token = false → r.header "Authorization" = none) ∧
      (r.header "Hash").isSome = true ∧ (r.header "Timestamp").isSome = true) ∧
    (truthyItem env.token = false → ∀ ev, ev.startsOperation = true →
      sentRequests (step env s ev).2 ≠ [] ∧
      ∀ r ∈ sentRequests (step env s ev).2,
        r.header "Authorization" = none ∧
        (r.header "Hash").isSome = true ∧ (r.header "Timestamp").isSome = true) := by
  constructor
  · intro r hr
    obtain ⟨k, hk⟩ := run_signed_mem env s evs r hr
    obtain ⟨h1, h2, h3⟩ := hk.headers_spec
    refine ⟨?_, ?_, by rw [h2]; rfl, by rw [h1]; rfl⟩
    · intro t ht hne
      have htr : truthyItem (some t) = true := by simpa [truthyItem] using hne
      rw [h3, ht, if_pos htr]
      rfl
    · intro hf
      rw [h3, hf]
      rfl
  · intro hf ev hev
    refine ⟨startsOperation_sends env s ev hev, ?_⟩
    intro r hr
    obtain ⟨k, hk⟩ := step_signed_mem env s ev r hr
    obtain ⟨h1, h2, h3⟩ := hk.headers_spec
    refine ⟨?_, by rw [h2]; rfl, by rw [h1]; rfl⟩
    rw [h3, hf]
    rfl

/-- Witness of C3: without a stored token the file listing is still sent, and the
request carries no Authorization header. -/
theorem authorization_iff_token_witness :
    sentRequests (step (sampleEnv none (some "pk1")) DashState.init Event.load).2 ≠ [] ∧
    ({ method := "GET", url := "https://localhost:8080/files",
       headers := [("Hash", "sig(pk1,1700000000000+https://localhost:8080/files)"),
         ("Timestamp", "1700000000000")],
       body := Body.empty } : Request).header "Authorization" = none :=
  ⟨((authorization_iff_token (sampleEnv none (some "pk1")) DashState.init []).2 rfl
      Event.load rfl).1,
   ((authorization_iff_token (sampleEnv none (some "pk1")) DashState.init
      [Event.load]).1
      { method := "GET", url := "https://localhost:8080/files",
        headers := [("Hash", "sig(pk1,1700000000000+https://localhost:8080/files)"),
          ("Timestamp", "1700000000000")],
        body := Body.empty } (by decide)).2.1 rfl⟩

/-! ### Signing without a private key -/

theorem navigations_step (env : Env) (s : DashState) (ev : Event)
    (h : ev ≠ Event.clickLogout) : navigations (step env s ev).2 = [] := by
  cases ev with
  | clickLogout => exact absurd rfl h
  | clickShowShareLinks f =>
    simp only [step, showShareLinksClick_effects, navigations_displays]
  | clickRead f =>
    simp only [step, readFile]
    split <;> rfl
  | filesDone x =>
    simp only [step, fetchFilesDone]
    split
    · split <;> rfl
    · rfl
  | linksDone x =>
    simp only [step, fetchAllLinksDone]
    split
    · split <;> rfl
    · rfl
  | readDone x => simp only [step, readFileDone]; split <;> rfl
  | downloadDone f x => simp only [step, downloadFileDone]; split <;> rfl
  | shareDone x =>
    simp only [step, shareFileDone]
    split
    · rfl
    · split <;> rfl
  | uploadDone x =>
    simp only [step, uploadFileDone]
    split
    · rfl
    · split <;> rfl
  | deleteDone l x => simp only [step, deleteLinkDone]; split <;> rfl
  | _ => rfl

theorem navigations_run (env : Env) (s : DashState) (evs : List Event)
    (h : Event.clickLogout ∉ evs) : navigations (run env s evs).2 = [] := by
  induction evs generalizing s with
  | nil => rfl
  | cons ev evs ih =>
    have h1 : ev ≠ Event.clickLogout := fun h2 => h (h2 ▸ List.mem_cons_self _ _)
    have h3 : Event.clickLogout ∉ evs := fun h2 => h (List.mem_cons_of_mem _ h2)
    simp only [run, navigations_append, navigations_step env s ev h1, ih _ h3,
      List.append_nil]

/-- C8, as stated, fails: with no private key in the session (and a signer that answers
`false` without a key, as JSEncrypt does) the file listing is sent all the same, with
the Hash header `false`, and nothing navigates to the login view. -/
theorem no_private_key_counterexample :
    (step (sampleEnv (some "tok1") none) DashState.init Event.load).2 =
      [Effect.send
        { method := "GET", url := "https://localhost:8080/files",
          headers := [("Authorization", "Bearer tok1"), ("Hash", "false"),
            ("Timestamp", "1700000000000")],
          body := Body.empty }] ∧
    sentRequests (step (sampleEnv (some "tok1") none) DashState.init Event.load).2 ≠ [] ∧
    "/login.html" ∉
      navigations (step (sampleEnv (some "tok1") none) DashState.init Event.load).2 := by
  decide

/-- C8, amended: when no private key is present in the session, `signWithPrivateKey`
hands the missing key to the signer and returns the signer's answer, raising nothing;
every handler that starts an operation still sends its request, whose Hash header is
that answer for `timestamp + "+" + url` as a string, and navigates nowhere; in a whole
session nothing but the logout click navigates. -/
theorem no_private_key_still_sends (env : Env) (s : DashState)
    (hk : env.private_key = none) :
    (∀ msg, signWithPrivateKey env msg = env.jsencrypt none msg) ∧
    (∀ ev, ev.startsOperation = true →
      sentRequests (step env s ev).2 ≠ [] ∧
      navigations (step env s ev).2 = [] ∧
      ∀ r ∈ sentRequests (step env s ev).2, ∃ T, r.header "Timestamp" = some T ∧
        r.header "Hash" = some (env.jsencrypt none (T ++ "+" ++ r.url)).toStr) ∧
    (∀ evs, Event.clickLogout ∉ evs → navigations (run env s evs).2 = []) := by
  have hsign : ∀ msg, signWithPrivateKey env msg = env.jsencrypt none msg := by
    intro msg
    unfold signWithPrivateKey
    rw [hk]
  refine ⟨hsign, ?_, fun evs h => navigations_run env s evs h⟩
  intro ev hev
  refine ⟨startsOperation_sends env s ev hev, ?_, ?_⟩
  · apply navigations_step
    intro h
    rw [h] at hev
    cases hev
  · intro r hr
    obtain ⟨k, hk1⟩ := step_signed_mem env s ev r hr
    refine ⟨_, hk1.headers_spec.1, ?_⟩
    rw [hk1.headers_spec.2.1, hsign]

/-- Witness of the amended C8: the file listing of a session without private key is
sent and navigates nowhere. -/
theorem no_private_key_still_sends_witness :
    sentRequests (step (sampleEnv (some "tok1") none) DashState.init Event.load).2 ≠ [] ∧
    navigations (step (sampleEnv (some "tok1") none) DashState.init Event.load).2 = [] :=
  ⟨((no_private_key_still_sends (sampleEnv (some "tok1") none) DashState.init rfl).2.1
      Event.load rfl).1,
   ((no_private_key_still_sends (sampleEnv (some "tok1") none) DashState.init rfl).2.1
      Event.load rfl).2.1⟩

/-! ### Timestamps -/

theorem digitChar_toNat (m : Nat) (h : m < 10) : (Nat.digitChar m).toNat - 48 = m := by
  interval_cases m <;> rfl

theorem foldl_toDigitsCore (fuel n : Nat) (ds : List Char) (h : n < fuel) :
    (Nat.toDigitsCore 10 fuel n ds).foldl (fun a c => 10 * a + (c.toNat - 48)) 0 =
      ds.foldl (fun a c => 10 * a + (c.toNat - 48)) n := by
  induction fuel generalizing n ds with
  | zero => omega
  | succ fuel ih =>
    unfold Nat.toDigitsCore
    by_cases h0 : n / 10 = 0
    · simp only [h0, if_true, List.foldl_cons, Nat.mul_zero, Nat.zero_add]
      rw [digitChar_toNat _ (Nat.mod_lt _ (by norm_num))]
      have : n % 10 = n := Nat.mod_eq_of_lt (by omega)
      rw [this]
    · simp only [h0, if_false]
      rw [ih (n / 10) _ (by omega)]
      simp only [List.foldl_cons]
      rw [digitChar_toNat _ (Nat.mod_lt _ (by norm_num))]
      have : 10 * (n / 10) + n % 10 = n := Nat.div_add_mod n 10
      rw [this]

theorem toString_nat_injective : Function.Injective (fun n : Nat => toString n) := by
  intro a b h
  have key : ∀ n : Nat,
      (toString n).data.foldl (fun a c => 10 * a + (c.toNat - 48)) 0 = n := by
    intro n
    show (Nat.repr n).data.foldl _ 0 = n
    unfold Nat.repr Nat.toDigits
    rw [List.asString, foldl_toDigitsCore _ _ _ (Nat.lt_succ_self n)]
    rfl
  have h1 := key a
  simp only at h
  rw [h, key b] at h1
  exact h1.symm

theorem digitChar_ne_plus (m : Nat) (h : m < 10) : Nat.digitChar m ≠ '+' := by
  interval_cases m <;> decide

theorem toDigitsCore_no_plus (fuel n : Nat) (ds : List Char) (hds : ∀ c ∈ ds, c ≠ '+') :
    ∀ c ∈ Nat.toDigitsCore 10 fuel n ds, c ≠ '+' := by
  induction fuel generalizing n ds with
  | zero => simpa [Nat.toDigitsCore] using hds
  | succ fuel ih =>
    have hcons : ∀ c ∈ Nat.digitChar (n % 10) :: ds, c ≠ '+' := by
      intro c hc
      rcases List.mem_cons.mp hc with h | h
      · rw [h]
        exact digitChar_ne_plus _ (Nat.mod_lt _ (by norm_num))
      · exact hds c h
    unfold Nat.toDigitsCore
    by_cases h0 : n / 10 = 0
    · simpa only [h0, if_true] using hcons
    · simp only [h0, if_false]
      exact ih _ _ hcons

theorem toString_nat_no_plus (n : Nat) : ∀ c ∈ (toString n).data, c ≠ '+' := by
  show ∀ c ∈ (Nat.repr n).data, c ≠ '+'
  unfold Nat.repr Nat.toDigits
  rw [List.asString]
  exact toDigitsCore_no_plus _ _ _ (by simp)

theorem append_plus_cancel (l1 l2 r1 r2 : List Char) (h1 : ∀ c ∈ l1, c ≠ '+')
    (h2 : ∀ c ∈ l2, c ≠ '+') (h : l1 ++ '+' :: r1 = l2 ++ '+' :: r2) :
    l1 = l2 ∧ r1 = r2 := by
  induction l1 generalizing l2 with
  | nil =>
    cases l2 with
    | nil => simpa using h
    | cons c l2 =>
      simp only [List.nil_append, List.cons_append, List.cons.injEq] at h
      exact absurd h.1.symm (h2 c (List.mem_cons_self _ _))
  | cons a l1 ih =>
    cases l2 with
    | nil =>
      simp only [List.nil_append, List.cons_append, List.cons.injEq] at h
      exact absurd h.1 (h1 a (List.mem_cons_self _ _))
    | cons c l2 =>
      simp only [List.cons_append, List.cons.injEq] at h
      obtain ⟨e1, e2⟩ := ih l2 (fun x hx => h1 x (List.mem_cons_of_mem _ hx))
        (fun x hx => h2 x (List.mem_cons_of_mem _ hx)) h.2
      exact ⟨by rw [h.1, e1], e2⟩

theorem message_timestamp_inj (a b : Nat) (u v : String)
    (h : toString a ++ "+" ++ u = toString b ++ "+" ++ v) :
    toString a = toString b ∧ u = v := by
  have h1 : (toString a).data ++ '+' :: u.data = (toString b).data ++ '+' :: v.data := by
    have := congrArg String.data h
    simpa [String.data_append] using this
  obtain ⟨e1, e2⟩ := append_plus_cancel _ _ _ _ (toString_nat_no_plus a)
    (toString_nat_no_plus b) h1
  exact ⟨String.ext e1, String.ext e2⟩

theorem run_timestamps (env : Env) (s : DashState) (evs : List Event) :
    (sentRequests (run env s evs).2).map (fun r => r.header "Timestamp") =
      (List.range' s.reads (sentRequests (run env s evs).2).length).map
        (fun k => some (toString (env.clock k))) := by
  obtain ⟨n, _, hf⟩ := run_signed env s evs
  have hlen : (sentRequests (run env s evs).2).length = n := by
    rw [hf.length_eq, List.length_range']
  rw [hlen]
  exact forall₂_map_eq _ _ (fun r k h => h.headers_spec.1) hf

theorem run_timestamps_nodup (env : Env) (s : DashState) (evs : List Event)
    (hclock : StrictMono env.clock) :
    ((sentRequests (run env s evs).2).map (fun r => r.header "Timestamp")).Nodup := by
  rw [run_timestamps]
  refine List.Nodup.map ?_ (List.nodup_range' _ _)
  intro a b h
  exact hclock.injective (toString_nat_injective (Option.some.inj h))

/-- C9, as stated, fails: with a clock that never goes backwards but returns the same
millisecond twice, the two requests of a share-link creation carry the same Timestamp,
and a read and a download of the same file carry the same Timestamp and the same
signature on the same URL. -/
theorem timestamp_reuse_counterexample :
    Monotone (sampleEnv (some "tok1") (some "pk1")).clock ∧
    (sentRequests (run (sampleEnv (some "tok1") (some "pk1")) DashState.init
      [Event.clickShare "a.txt"]).2).map (fun r => r.header "Timestamp") =
      [some "1700000000000", some "1700000000000"] ∧
    (sentRequests (run (sampleEnv (some "tok1") (some "pk1")) DashState.init
      [Event.clickRead "a.txt", Event.clickDownload "a.txt"]).2).map
        (fun r => (r.url, r.header "Timestamp", r.header "Hash")) =
      [("https://localhost:8080/files/a.txt", some "1700000000000",
        some "sig(pk1,1700000000000+https://localhost:8080/files/a.txt)"),
       ("https://localhost:8080/files/a.txt", some "1700000000000",
        some "sig(pk1,1700000000000+https://localhost:8080/files/a.txt)")] := by
  refine ⟨?_, by decide, by decide⟩
  intro a b hab
  show 1700000000000 + a / 2 ≤ 1700000000000 + b / 2
  have : a / 2 ≤ b / 2 := Nat.div_le_div_right hab
  omega

/-- C9, amended: every request of a session takes a clock reading of its own: the
Timestamp headers of the requests are the successive clock readings, in order. So when
each reading is later than the one before, no two requests of the session carry the
same Timestamp, no two are signed over the same message, and under a signer without
collisions no two carry the same Hash, also on the same URL. -/
theorem timestamps_are_successive_readings (env : Env) (s : DashState)
    (evs : List Event) :
    (sentRequests (run env s evs).2).map (fun r => r.header "Timestamp") =
      (List.range' s.reads (sentRequests (run env s evs).2).length).map
        (fun k => some (toString (env.clock k))) ∧
    (StrictMono env.clock →
      ((sentRequests (run env s evs).2).map (fun r => r.header "Timestamp")).Nodup ∧
      ((sentRequests (run env s evs).2).map
        (fun r => (r.header "Timestamp").getD "" ++ "+" ++ r.url)).Nodup ∧
      (Function.Injective (fun msg => (signWithPrivateKey env msg).toStr) →
        ((sentRequests (run env s evs).2).map (fun r => r.header "Hash")).Nodup)) := by
  refine ⟨run_timestamps env s evs, fun hclock => ?_⟩
  have hts := run_timestamps_nodup env s evs hclock
  have hnd : (sentRequests (run env s evs).2).Nodup := List.Nodup.of_map _ hts
  have hinj := List.inj_on_of_nodup_map hts
  have hmsg : ∀ r1 ∈ sentRequests (run env s evs).2,
      ∀ r2 ∈ sentRequests (run env s evs).2,
      (r1.header "Timestamp").getD "" ++ "+" ++ r1.url =
        (r2.header "Timestamp").getD "" ++ "+" ++ r2.url → r1 = r2 := by
    intro r1 h1 r2 h2 h
    obtain ⟨k1, hk1⟩ := run_signed_mem env s evs r1 h1
    obtain ⟨k2, hk2⟩ := run_signed_mem env s evs r2 h2
    rw [hk1.headers_spec.1, hk2.headers_spec.1] at h
    simp only [Option.getD_some] at h
    apply hinj h1 h2
    rw [hk1.headers_spec.1, hk2.headers_spec.1, (message_timestamp_inj _ _ _ _ h).1]
  refine ⟨hts, List.Nodup.map_on hmsg hnd, fun hsig => ?_⟩
  refine List.Nodup.map_on ?_ hnd
  intro r1 h1 r2 h2 h
  obtain ⟨k1, hk1⟩ := run_signed_mem env s evs r1 h1
  obtain ⟨k2, hk2⟩ := run_signed_mem env s evs r2 h2
  apply hmsg r1 h1 r2 h2
  rw [hk1.headers_spec.1, hk2.headers_spec.1]
  simp only [Option.getD_some]
  rw [hk1.headers_spec.2.1, hk2.headers_spec.2.1] at h
  exact hsig (Option.some.inj h)

/-- Witness of the amended C9: with a clock that advances at every reading, the two
requests of a share-link creation carry different Timestamps. -/
theorem timestamps_are_successive_readings_witness :
    StrictMono (tickingEnv (some "tok1") (some "pk1")).clock ∧
    ((sentRequests (run (tickingEnv (some "tok1") (some "pk1")) DashState.init
      [Event.clickShare "a.txt"]).2).map (fun r => r.header "Timestamp")).Nodup :=
  ⟨fun _ _ h => Nat.add_lt_add_left h 1700000000000,
   ((timestamps_are_successive_readings (tickingEnv (some "tok1") (some "pk1"))
      DashState.init [Event.clickShare "a.txt"]).2
      (fun _ _ h => Nat.add_lt_add_left h 1700000000000)).1⟩

/-! ### Response classification -/

/-- C10, as stated, fails: status 201 and status 204 are 2xx statuses, yet the upload
handler reports `File upload failed` on 201 and issues no listing refresh, and the
delete handler only logs an error on 204, removing nothing and refreshing nothing. -/
theorem success_2xx_counterexample :
    responseOk 201 = true ∧ responseOk 204 = true ∧
    step (sampleEnv (some "tok1") (some "pk1")) DashState.init
      (Event.uploadDone { status := 201, statusText := "Created", responseText := "" }) =
      (DashState.init, [Effect.alert "File upload failed: "]) ∧
    step (sampleEnv (some "tok1") (some "pk1")) DashState.init
      (Event.deleteDone "abc123"
        { status := 204, statusText := "No Content", responseText := "" }) =
      (DashState.init, [Effect.consoleError "Failed to delete link:" "No Content"]) := by
  decide

/-- C10, amended: login, registration and the login after registration classify by
`response.ok`, so every status from 200 to 299 takes their ok branch: the registration
goes on to the login whatever the body, and a login stores the session and navigates
when the body parses to an object, while a body that cannot be read (an empty 204 or
205) ends in the error handler and stores nothing. The handlers of the dashboard treat
exactly the status 200 as success: read, download, link creation, upload and link
deletion use the payload and request their follow-up listing, and the two listings do
so when their payload parses and end in the uncaught `JSON.parse` error when it does
not. On every other status, 201 to 299 included, the dashboard handlers take their
failure branch and send nothing. -/
theorem success_classification (env : Env) (s : DashState) :
    (∀ status, 200 ≤ status → status ≤ 299 →
      (∀ data, loginUserSettled (FetchResult.response status (ParsedBody.obj data)) =
        [Effect.setItem "privateKey" (getField data "private_key").toStr,
         Effect.setItem "jwtToken" (getField data "token").toStr,
         Effect.navigate "dashboard.html"]) ∧
      (∀ message,
        loginUserSettled (FetchResult.response status (ParsedBody.unreadable message)) =
          [Effect.consoleLog message, Effect.showError message,
           Effect.submitDisabled false]) ∧
      (∀ body formData, registerUserSettled (FetchResult.response status body) formData =
        [Effect.fetch "https://localhost:27464/user/login" formData]) ∧
      (∀ data username,
        loginUserAfterRegisterSettled (FetchResult.response status (ParsedBody.obj data))
            username =
          [Effect.setItem "privateKey" (getField data "private_key").toStr,
           Effect.setItem "jwtToken" (getField data "token").toStr,
           Effect.navigate ("dashboard.html?username=" ++ username)]) ∧
      (∀ message username,
        loginUserAfterRegisterSettled
            (FetchResult.response status (ParsedBody.unreadable message)) username =
          [Effect.consoleError message "", Effect.submitDisabled false])) ∧
    (∀ x : XhrDone, x.status = 200 →
      (step env s (Event.readDone x)).2 = [Effect.displayFileContent x.responseText] ∧
      (∀ f, (step env s (Event.downloadDone f x)).2 = [Effect.saveFile f x.responseText]) ∧
      (step env s (Event.shareDone x)).2 =
        [Effect.alert ("Shareable link created: " ++ x.responseText)] ∧
      (step env s (Event.uploadDone x)).2 =
        Effect.alert "File uploaded!" :: (fetchFiles env s).2 ∧
      (∀ l, (step env s (Event.deleteDone l x)).2 =
        Effect.alert "Link deleted successfully" :: Effect.removeLinkBox l ::
          (fetchFiles env (removeDeletedLinkFromModal s l).1).2) ∧
      (∀ fileList, env.parseFiles x.responseText = some fileList →
        (step env s (Event.filesDone x)).2 =
          Effect.renderFileList fileList ::
            (fetchAllLinks env { s with files := fileList, listeners := [] }).2) ∧
      (env.parseFiles x.responseText = none →
        (step env s (Event.filesDone x)).2 = [Effect.uncaught "JSON.parse"]) ∧
      (∀ allLinks, env.parseLinks x.responseText = some allLinks →
        step env s (Event.linksDone x) =
          ({ s with listeners := s.listeners ++ [allLinks] },
           [Effect.listenShareLinks allLinks])) ∧
      (env.parseLinks x.responseText = none →
        (step env s (Event.linksDone x)).2 = [Effect.uncaught "JSON.parse"])) ∧
    (∀ x : XhrDone, x.status ≠ 200 →
      step env s (Event.readDone x) =
        (s, [Effect.consoleError "Failed to fetch file:" x.statusText]) ∧
      (∀ f, step env s (Event.downloadDone f x) =
        (s, [Effect.consoleError "Failed to fetch file:" x.statusText])) ∧
      step env s (Event.shareDone x) =
        (s, if x.status = 403 then [Effect.alert "You don't have permission to create links."]
          else [Effect.consoleError "Failed to create shareable link:" x.statusText]) ∧
      step env s (Event.uploadDone x) =
        (s, if x.status = 403 then [Effect.alert "You don't have permission to upload files."]
          else [Effect.alert ("File upload failed: " ++ x.responseText)]) ∧
      (∀ l, step env s (Event.deleteDone l x) =
        (s, [Effect.consoleError "Failed to delete link:" x.statusText])) ∧
      step env s (Event.filesDone x) =
        (s, [Effect.consoleError "Error fetching files:" x.responseText]) ∧
      step env s (Event.linksDone x) =
        (s, [Effect.consoleError "Failed to fetch all links:" x.statusText])) := by
  refine ⟨?_, ?_, ?_⟩
  · intro status h1 h2
    have hok : responseOk status = true := by simp [responseOk, h1, h2]
    refine ⟨?_, ?_, ?_, ?_, ?_⟩
    · intro data
      simp [loginUserSettled, hok]
    · intro message
      simp [loginUserSettled, hok, handleLoginError]
    · intro body formData
      simp [registerUserSettled, hok, loginUserAfterRegister]
    · intro data username
      simp [loginUserAfterRegisterSettled, hok]
    · intro message username
      simp [loginUserAfterRegisterSettled, hok]
  · intro x hx
    refine ⟨?_, ?_, ?_, ?_, ?_, ?_, ?_, ?_, ?_⟩
    · simp [step, readFileDone, hx, displayFileContentInModal]
    · intro f
      simp [step, downloadFileDone, hx]
    · simp [step, shareFileDone, hx]
    · simp [step, uploadFileDone, hx]
    · intro l
      simp [step, deleteLinkDone, hx, removeDeletedLinkFromModal]
    · intro fileList hp
      simp [step, fetchFilesDone, hx, hp]
    · intro hp
      simp [step, fetchFilesDone, hx, hp]
    · intro allLinks hp
      simp [step, fetchAllLinksDone, hx, hp]
    · intro hp
      simp [step, fetchAllLinksDone, hx, hp]
  · intro x hx
    refine ⟨?_, ?_, ?_, ?_, ?_, ?_, ?_⟩
    · simp [step, readFileDone, hx]
    · intro f
      simp [step, downloadFileDone, hx]
    · by_cases h3 : x.status = 403 <;> simp [step, shareFileDone, hx, h3]
    · by_cases h3 : x.status = 403 <;> simp [step, uploadFileDone, hx, h3]
    · intro l
      simp [step, deleteLinkDone, hx]
    · simp [step, fetchFilesDone, hx]
    · simp [step, fetchAllLinksDone, hx]

/-- Witness of the amended C10: a login answered 201 with the body
`{private_key: "pk1", token: "tok1"}` stores the session and navigates; a login
answered 204, whose empty body `response.json()` rejects, shows the parser's error and
stores nothing; a registration answered 204 goes on to the login; and an upload
answered 200 asks for the file listing again. -/
theorem success_classification_witness :
    loginUserSettled (FetchResult.response 201
      (ParsedBody.obj [("private_key", JSVal.str "pk1"), ("token", JSVal.str "tok1")])) =
      [Effect.setItem "privateKey" "pk1", Effect.setItem "jwtToken" "tok1",
       Effect.navigate "dashboard.html"] ∧
    loginUserSettled (FetchResult.response 204
      (ParsedBody.unreadable "Unexpected end of JSON input")) =
      [Effect.consoleLog "Unexpected end of JSON input",
       Effect.showError "Unexpected end of JSON input", Effect.submitDisabled false] ∧
    registerUserSettled (FetchResult.response 204
      (ParsedBody.unreadable "Unexpected end of JSON input")) [("username", "alice")] =
      [Effect.fetch "https://localhost:27464/user/login" [("username", "alice")]] ∧
    (step (sampleEnv (some "tok1") (some "pk1")) DashState.init
      (Event.uploadDone { status := 200, statusText := "OK", responseText := "" })).2 =
      Effect.alert "File uploaded!" ::
        (fetchFiles (sampleEnv (some "tok1") (some "pk1")) DashState.init).2 :=
  ⟨((success_classification (sampleEnv (some "tok1") (some "pk1")) DashState.init).1
      201 (by decide) (by decide)).1 _,
   ((success_classification (sampleEnv (some "tok1") (some "pk1")) DashState.init).1
      204 (by decide) (by decide)).2.1 _,
   ((success_classification (sampleEnv (some "tok1") (some "pk1")) DashState.init).1
      204 (by decide) (by decide)).2.2.1 _ _,
   ((success_classification (sampleEnv (some "tok1") (some "pk1")) DashState.init).2.1
      { status := 200, statusText := "OK", responseText := "" } rfl).2.2.2.1⟩

/-! ### The expiry boundary -/

/-- C15, as stated, fails: a token expiring at second 100, checked at millisecond
100000 (so `now - exp = 0`), is routed to the dashboard, not to the login view. -/
theorem expiry_boundary_counterexample :
    Int.fdiv 100000 1000 - 100 = 0 ∧
    authOnLoad (fun _ => some { exp := some 100 }) 100000 [("jwtToken", "tok1")] =
      [Effect.decodeJwt "tok1", Effect.navigate "/dashboard.html"] ∧
    "/login.html" ∉ navigations
      (authOnLoad (fun _ => some { exp := some 100 }) 100000 [("jwtToken", "tok1")]) := by
  decide

/-- C15, amended: for every stored token that decodes with expiry `exp` and every
clock reading with `⌊ms / 1000⌋ - exp = 0`, the page-load check treats the token as
live: it decodes it and navigates to `/dashboard.html`, since only `diff > 0` routes
to the login view. -/
theorem expiry_boundary_is_live (decodeJwt : String → Option Claims) (ms : Int)
    (st : LocalStorage) (token : String) (exp : Int)
    (hg : st.getItem "jwtToken" = some token) (hne : token ≠ "")
    (hd : decodeJwt token = some { exp := some exp })
    (h0 : ⌊(ms : ℚ) / 1000⌋ - exp = 0) :
    authOnLoad decodeJwt ms st =
      [Effect.decodeJwt token, Effect.navigate "/dashboard.html"] := by
  have ht : truthyItem (some token) = true := by simpa [truthyItem] using hne
  rw [← fdiv_thousand_eq_floor] at h0
  unfold authOnLoad
  simp [hg, ht, authenticateWithToken, hd, h0]

/-- Witness of the amended C15 at `exp = 100` and `ms = 100000`. -/
theorem expiry_boundary_is_live_witness :
    authOnLoad (fun _ => some { exp := some 100 }) 100000 [("jwtToken", "tok1")] =
      [Effect.decodeJwt "tok1", Effect.navigate "/dashboard.html"] :=
  expiry_boundary_is_live (fun _ => some { exp := some 100 }) 100000
    [("jwtToken", "tok1")] "tok1" 100 (by decide) (by decide) rfl
    (by rw [← fdiv_thousand_eq_floor]; decide)

/-! ### Client-error messages -/

theorem problem_ne_generic (s : String) :
    "Problem creating account: " ++ s ≠ genericError ∧
    "Problem logging in: " ++ s ≠ genericError := by
  have hg : genericError.data.head? = some 'A' := rfl
  constructor
  · intro h
    have h1 := congrArg String.data h
    rw [String.data_append] at h1
    have h2 := congrArg List.head? h1
    have h3 : ("Problem creating account: ".data ++ s.data).head? = some 'P' := rfl
    rw [h3, hg] at h2
    exact absurd (Option.some.inj h2) (by decide)
  · intro h
    have h1 := congrArg String.data h
    rw [String.data_append] at h1
    have h2 := congrArg List.head? h1
    have h3 : ("Problem logging in: ".data ++ s.data).head? = some 'P' := rfl
    rw [h3, hg] at h2
    exact absurd (Option.some.inj h2) (by decide)

/-- C12, as stated, fails: a registration answered with status 422 and the structured
error `Password too short` shows the fixed text `Username contains invalid characters`,
which does not contain the server's text and is not the generic fallback either. -/
theorem client_error_text_counterexample :
    getField [("error", JSVal.str "Password too short")] "error" =
      JSVal.str "Password too short" ∧
    registerUserSettled
      (FetchResult.response 422
        (ParsedBody.obj [("error", JSVal.str "Password too short")])) [] =
      [Effect.showError "Username contains invalid characters",
       Effect.submitDisabled false] ∧
    ¬ ("Password too short".data <:+: "Username contains invalid characters".data) ∧
    "Username contains invalid characters" ≠ genericError := by
  refine ⟨by decide, by decide, ?_, by decide⟩
  decide

/-- C12, amended: for a registration answered with 400 or 409 and a login answered
with 400, with a body that parses to an object, the message shown is the page's prefix
followed by the server's `error` text when the body has one (a truthy `error`, such as
a non-empty string), and the generic fallback exactly when it has none; a registration
answered with 422 always shows `Username contains invalid characters`, whatever the
body says. -/
theorem client_error_messages (formData : List (String × String)) :
    (∀ status errorMsg, status = 400 ∨ status = 409 →
      (∀ text, getField errorMsg "error" = JSVal.str text → text ≠ "" →
        userMessages (registerUserSettled
          (FetchResult.response status (ParsedBody.obj errorMsg)) formData) =
          ["Problem creating account: " ++ text]) ∧
      ((getField errorMsg "error").truthy = true →
        userMessages (registerUserSettled
          (FetchResult.response status (ParsedBody.obj errorMsg)) formData) =
          ["Problem creating account: " ++ (getField errorMsg "error").toStr]) ∧
      ((getField errorMsg "error").truthy = false ↔
        userMessages (registerUserSettled
          (FetchResult.response status (ParsedBody.obj errorMsg)) formData) =
          [genericError])) ∧
    (∀ errorMsg,
      (∀ text, getField errorMsg "error" = JSVal.str text → text ≠ "" →
        userMessages (loginUserSettled
          (FetchResult.response 400 (ParsedBody.obj errorMsg))) =
          ["Problem logging in: " ++ text]) ∧
      ((getField errorMsg "error").truthy = true →
        userMessages (loginUserSettled
          (FetchResult.response 400 (ParsedBody.obj errorMsg))) =
          ["Problem logging in: " ++ (getField errorMsg "error").toStr]) ∧
      ((getField errorMsg "error").truthy = false ↔
        userMessages (loginUserSettled
          (FetchResult.response 400 (ParsedBody.obj errorMsg))) =
          [genericError])) ∧
    (∀ body, registerUserSettled (FetchResult.response 422 body) formData =
      [Effect.showError "Username contains invalid characters",
       Effect.submitDisabled false]) := by
  refine ⟨?_, ?_, ?_⟩
  · intro status errorMsg hs
    have hok : responseOk status = false := by
      rcases hs with h | h <;> rw [h] <;> rfl
    have h422 : status ≠ 422 := by
      rcases hs with h | h <;> rw [h] <;> decide
    have hs1 : status = 409 ∨ status = 400 := hs.symm
    have hreg : registerUserSettled
        (FetchResult.response status (ParsedBody.obj errorMsg)) formData =
        handleRegistrationError
          (if (getField errorMsg "error").truthy
           then "Problem creating account: " ++ (getField errorMsg "error").toStr
           else genericError) := by
      simp [registerUserSettled, hok, h422, hs1]
    rw [hreg]
    refine ⟨?_, ?_, ?_⟩
    · intro text ht hne
      have htr : (getField errorMsg "error").truthy = true := by
        rw [ht]
        simpa [JSVal.truthy] using hne
      rw [if_pos htr, ht]
      rfl
    · intro htr
      simp [htr, handleRegistrationError, userMessages]
    · constructor
      · intro hf
        simp [hf, handleRegistrationError, userMessages]
      · intro h
        cases htr : (getField errorMsg "error").truthy with
        | false => rfl
        | true =>
          simp [htr, handleRegistrationError, userMessages] at h
          exact absurd h (problem_ne_generic _).1
  · intro errorMsg
    have hlog : loginUserSettled (FetchResult.response 400 (ParsedBody.obj errorMsg)) =
        handleLoginError
          (if (getField errorMsg "error").truthy
           then "Problem logging in: " ++ (getField errorMsg "error").toStr
           else genericError) := by
      have hok : responseOk 400 = false := rfl
      simp [loginUserSettled, hok]
    rw [hlog]
    refine ⟨?_, ?_, ?_⟩
    · intro text ht hne
      have htr : (getField errorMsg "error").truthy = true := by
        rw [ht]
        simpa [JSVal.truthy] using hne
      rw [if_pos htr, ht]
      rfl
    · intro htr
      simp [htr, handleLoginError, userMessages]
    · constructor
      · intro hf
        simp [hf, handleLoginError, userMessages]
      · intro h
        cases htr : (getField errorMsg "error").truthy with
        | false => rfl
        | true =>
          simp [htr, handleLoginError, userMessages] at h
          exact absurd h (problem_ne_generic _).2
  · intro body
    have hok : responseOk 422 = false := rfl
    simp [registerUserSettled, hok, handleRegistrationError]

/-- Witness of the amended C12: a registration answered with 409 and the text
`Username already taken`, and a login answered with 400 and no `error`. -/
theorem client_error_messages_witness :
    userMessages (registerUserSettled
      (FetchResult.response 409
        (ParsedBody.obj [("error", JSVal.str "Username already taken")])) []) =
      ["Problem creating account: " ++ "Username already taken"] ∧
    userMessages (loginUserSettled (FetchResult.response 400 (ParsedBody.obj []))) =
      [genericError] :=
  ⟨((client_error_messages []).1 409 [("error", JSVal.str "Username already taken")]
      (Or.inr rfl)).1 "Username already taken" (by decide) (by decide),
   ((client_error_messages []).2.1 []).2.2.mp (by decide)⟩

/-! ### Failed actions -/

theorem loginUserSettled_not_succeeded (r : FetchResult) (h : loginSucceeded r = false) :
    ∃ message, loginUserSettled r = handleLoginError message := by
  cases r with
  | rejected message => exact ⟨message, rfl⟩
  | response status body =>
    cases hok : responseOk status with
    | false => exact loginUserSettled_failure status body hok
    | true =>
      cases body with
      | unreadable message => exact ⟨message, by simp [loginUserSettled, hok]⟩
      | obj data =>
        have : loginSucceeded (FetchResult.response status (ParsedBody.obj data)) = true := hok
        rw [this] at h
        cases h

theorem loginUserAfterRegisterSettled_not_succeeded (r : FetchResult) (username : String)
    (h : loginSucceeded r = false) :
    ∃ message, loginUserAfterRegisterSettled r username =
      [Effect.consoleError message "", Effect.submitDisabled false] := by
  cases r with
  | rejected message => exact ⟨message, rfl⟩
  | response status body =>
    cases hok : responseOk status with
    | false => exact ⟨"Login failed", by simp [loginUserAfterRegisterSettled, hok]⟩
    | true =>
      cases body with
      | unreadable message => exact ⟨message, by simp [loginUserAfterRegisterSettled, hok]⟩
      | obj data =>
        have : loginSucceeded (FetchResult.response status (ParsedBody.obj data)) = true := hok
        rw [this] at h
        cases h

theorem fetches_loginUserSettled (r : FetchResult) : fetches (loginUserSettled r) = [] := by
  cases hl : loginSucceeded r with
  | false =>
    obtain ⟨message, h⟩ := loginUserSettled_not_succeeded r hl
    rw [h]
    rfl
  | true =>
    cases r with
    | rejected message => cases hl
    | response status body =>
      cases body with
      | unreadable message => cases hl
      | obj data =>
        have hok : responseOk status = true := hl
        simp [loginUserSettled, hok, fetches]

theorem fetches_loginUserAfterRegisterSettled (r : FetchResult) (username : String) :
    fetches (loginUserAfterRegisterSettled r username) = [] := by
  cases hl : loginSucceeded r with
  | false =>
    obtain ⟨message, h⟩ := loginUserAfterRegisterSettled_not_succeeded r username hl
    rw [h]
    rfl
  | true =>
    cases r with
    | rejected message => cases hl
    | response status body =>
      cases body with
      | unreadable message => cases hl
      | obj data =>
        have hok : responseOk status = true := hl
        simp [loginUserAfterRegisterSettled, hok, fetches]

theorem step_done_failure (env : Env) (s : DashState) (x : XhrDone) (f l : String)
    (hx : x.status ≠ 200) :
    step env s (Event.readDone x) =
      (s, [Effect.consoleError "Failed to fetch file:" x.statusText]) ∧
    step env s (Event.downloadDone f x) =
      (s, [Effect.consoleError "Failed to fetch file:" x.statusText]) ∧
    step env s (Event.deleteDone l x) =
      (s, [Effect.consoleError "Failed to delete link:" x.statusText]) ∧
    step env s (Event.filesDone x) =
      (s, [Effect.consoleError "Error fetching files:" x.responseText]) ∧
    step env s (Event.linksDone x) =
      (s, [Effect.consoleError "Failed to fetch all links:" x.statusText]) ∧
    step env s (Event.shareDone x) =
      (s, if x.status = 403 then [Effect.alert "You don't have permission to create links."]
        else [Effect.consoleError "Failed to create shareable link:" x.statusText]) ∧
    step env s (Event.uploadDone x) =
      (s, if x.status = 403 then [Effect.alert "You don't have permission to upload files."]
        else [Effect.alert ("File upload failed: " ++ x.responseText)]) := by
  refine ⟨?_, ?_, ?_, ?_, ?_, ?_, ?_⟩
  · simp [step, readFileDone, hx]
  · simp [step, downloadFileDone, hx]
  · simp [step, deleteLinkDone, hx]
  · simp [step, fetchFilesDone, hx]
  · simp [step, fetchAllLinksDone, hx]
  · by_cases h3 : x.status = 403 <;> simp [step, shareFileDone, hx, h3]
  · by_cases h3 : x.status = 403 <;> simp [step, uploadFileDone, hx, h3]

/-- C11, as stated, fails: a file read answered with status 500 is only logged to the
console, and so is a failed login after a successful registration; the user is shown
no message. -/
theorem failure_message_counterexample :
    step (sampleEnv (some "tok1") (some "pk1")) DashState.init
      (Event.readDone
        { status := 500, statusText := "Internal Server Error", responseText := "" }) =
      (DashState.init,
       [Effect.consoleError "Failed to fetch file:" "Internal Server Error"]) ∧
    userMessages (step (sampleEnv (some "tok1") (some "pk1")) DashState.init
      (Event.readDone
        { status := 500, statusText := "Internal Server Error", responseText := "" })).2 =
      [] ∧
    registerThenLogin (FetchResult.response 200 (ParsedBody.obj []))
      (FetchResult.response 401 (ParsedBody.obj [])) [("username", "alice")] "alice" =
      [Effect.fetch "https://localhost:27464/user/login" [("username", "alice")],
       Effect.consoleError "Login failed" "", Effect.submitDisabled false] ∧
    userMessages (registerThenLogin (FetchResult.response 200 (ParsedBody.obj []))
      (FetchResult.response 401 (ParsedBody.obj [])) [("username", "alice")] "alice") =
      [] := by
  decide

/-- C11, amended: no failed action is retried: a login or a login after registration
never issues a fetch when it settles, a failed registration issues none, and a
dashboard request that ends with a status other than 200 leaves the page state as it
was and sends nothing. A message is put before the user by a failed login, a failed
registration, a failed upload and a link creation answered with 403; a failed login
after registration, and a failed file listing, read, download, link listing, link
deletion and link creation with another status are logged to the console only. -/
theorem failures_shown_or_logged (env : Env) (s : DashState) :
    (∀ r, fetches (loginUserSettled r) = []) ∧
    (∀ r formData, registrationOk r = false →
      fetches (registerUserSettled r formData) = []) ∧
    (∀ r username, fetches (loginUserAfterRegisterSettled r username) = []) ∧
    (∀ x f l, x.status ≠ 200 →
      ∀ ev ∈ [Event.readDone x, Event.downloadDone f x, Event.shareDone x,
          Event.uploadDone x, Event.deleteDone l x, Event.filesDone x, Event.linksDone x],
        (step env s ev).1 = s ∧ sentRequests (step env s ev).2 = []) ∧
    (∀ r, loginSucceeded r = false →
      ∃ message, userMessages (loginUserSettled r) = [message]) ∧
    (∀ r formData, registrationOk r = false →
      ∃ message, userMessages (registerUserSettled r formData) = [message]) ∧
    (∀ x, x.status ≠ 200 →
      ∃ message, userMessages (step env s (Event.uploadDone x)).2 = [message]) ∧
    (∀ x, x.status = 403 →
      userMessages (step env s (Event.shareDone x)).2 =
        ["You don't have permission to create links."]) ∧
    (∀ r username, loginSucceeded r = false →
      userMessages (loginUserAfterRegisterSettled r username) = []) ∧
    (∀ x f l, x.status ≠ 200 →
      ∀ ev ∈ [Event.readDone x, Event.downloadDone f x, Event.deleteDone l x,
          Event.filesDone x, Event.linksDone x],
        userMessages (step env s ev).2 = []) ∧
    (∀ x, x.status ≠ 200 → x.status ≠ 403 →
      userMessages (step env s (Event.shareDone x)).2 = []) := by
  refine ⟨fetches_loginUserSettled, ?_, fetches_loginUserAfterRegisterSettled,
    ?_, ?_, ?_, ?_, ?_, ?_, ?_, ?_⟩
  · intro r formData h
    obtain ⟨message, hm⟩ := registerUserSettled_failure r formData h
    rw [hm]
    rfl
  · intro x f l hx ev hev
    obtain ⟨h1, h2, h3, h4, h5, h6, h7⟩ := step_done_failure env s x f l hx
    simp only [List.mem_cons, List.mem_singleton, List.not_mem_nil, or_false] at hev
    rcases hev with h | h | h | h | h | h | h <;> subst h
    · rw [h1]; exact ⟨rfl, rfl⟩
    · rw [h2]; exact ⟨rfl, rfl⟩
    · rw [h6]; refine ⟨rfl, ?_⟩
      by_cases h403 : x.status = 403 <;> simp [h403, sentRequests]
    · rw [h7]; refine ⟨rfl, ?_⟩
      by_cases h403 : x.status = 403 <;> simp [h403, sentRequests]
    · rw [h3]; exact ⟨rfl, rfl⟩
    · rw [h4]; exact ⟨rfl, rfl⟩
    · rw [h5]; exact ⟨rfl, rfl⟩
  · intro r h
    obtain ⟨message, hm⟩ := loginUserSettled_not_succeeded r h
    exact ⟨message, by rw [hm]; rfl⟩
  · intro r formData h
    obtain ⟨message, hm⟩ := registerUserSettled_failure r formData h
    exact ⟨message, by rw [hm]; rfl⟩
  · intro x hx
    rw [(step_done_failure env s x "" "" hx).2.2.2.2.2.2]
    by_cases h403 : x.status = 403
    · exact ⟨"You don't have permission to upload files.", by simp [h403, userMessages]⟩
    · exact ⟨"File upload failed: " ++ x.responseText, by simp [h403, userMessages]⟩
  · intro x hx
    have h200 : x.status ≠ 200 := by rw [hx]; decide
    rw [(step_done_failure env s x "" "" h200).2.2.2.2.2.1]
    simp [hx, userMessages]
  · intro r username h
    obtain ⟨message, hm⟩ := loginUserAfterRegisterSettled_not_succeeded r username h
    rw [hm]
    rfl
  · intro x f l hx ev hev
    obtain ⟨h1, h2, h3, h4, h5, _, _⟩ := step_done_failure env s x f l hx
    simp only [List.mem_cons, List.mem_singleton, List.not_mem_nil, or_false] at hev
    rcases hev with h | h | h | h | h <;> subst h
    · rw [h1]; rfl
    · rw [h2]; rfl
    · rw [h3]; rfl
    · rw [h4]; rfl
    · rw [h5]; rfl
  · intro x hx h403
    rw [(step_done_failure env s x "" "" hx).2.2.2.2.2.1]
    simp [h403, userMessages]

/-- Witness of the amended C11: an upload answered with 500 alerts the user and sends
nothing, and a file listing answered with 500 shows nothing. -/
theorem failures_shown_or_logged_witness :
    sentRequests (step (sampleEnv (some "tok1") (some "pk1")) DashState.init
      (Event.uploadDone { status := 500, statusText := "", responseText := "boom" })).2 =
      [] ∧
    userMessages (step (sampleEnv (some "tok1") (some "pk1")) DashState.init
      (Event.filesDone { status := 500, statusText := "", responseText := "boom" })).2 =
      [] :=
  ⟨((failures_shown_or_logged (sampleEnv (some "tok1") (some "pk1")) DashState.init).2.2.2.1
      { status := 500, statusText := "", responseText := "boom" } "" "" (by decide)
      _ (by simp)).2,
   (failures_shown_or_logged (sampleEnv (some "tok1") (some "pk1"))
      DashState.init).2.2.2.2.2.2.2.2.2.1
      { status := 500, statusText := "", responseText := "boom" } "" "" (by decide)
      _ (by simp)⟩

/-! ### Revoking a share link -/

theorem link_id_beq (a b : String) : (("link-" ++ a) == ("link-" ++ b)) = (a == b) := by
  have h : ("link-" ++ a = "link-" ++ b) ↔ a = b := by
    constructor
    · intro h
      have h1 := congrArg String.data h
      rw [String.data_append, String.data_append] at h1
      exact String.ext (List.append_cancel_left h1)
    · intro h
      rw [h]
  by_cases hab : a = b
  · simp [hab]
  · have : ¬ ("link-" ++ a = "link-" ++ b) := fun h1 => hab (h.mp h1)
    simp [hab, this]

/-- C13, as stated, fails: after the link `abc123` was revoked with status 200, its box
is gone from the displayed list, but the mapping kept by the Show Share Links listener
still holds it, so the next click lists `abc123` again; and what the success handler
requests is the file listing, not the link listing. -/
theorem revoke_snapshot_counterexample :
    (run (listingEnv (some "tok1") (some "pk1")) DashState.init
      [Event.load, Event.filesDone { status := 200, statusText := "OK", responseText := "" },
       Event.linksDone { status := 200, statusText := "OK", responseText := "" },
       Event.clickShowShareLinks "a.txt", Event.clickDelete "abc123",
       Event.deleteDone "abc123"
         { status := 200, statusText := "OK", responseText := "" }]).1.linkBoxes =
      [("def456", { file_name := JSVal.str "a.txt" })] ∧
    (sentRequests (step (listingEnv (some "tok1") (some "pk1")) DashState.init
      (Event.deleteDone "abc123"
        { status := 200, statusText := "OK", responseText := "" })).2).map
        (fun r => (r.method, r.url)) = [("GET", "https://localhost:8080/files")] ∧
    (step (listingEnv (some "tok1") (some "pk1"))
      (run (listingEnv (some "tok1") (some "pk1")) DashState.init
        [Event.load,
         Event.filesDone { status := 200, statusText := "OK", responseText := "" },
         Event.linksDone { status := 200, statusText := "OK", responseText := "" },
         Event.clickShowShareLinks "a.txt", Event.clickDelete "abc123",
         Event.deleteDone "abc123"
           { status := 200, statusText := "OK", responseText := "" }]).1
      (Event.clickShowShareLinks "a.txt")).2 =
      [Effect.displayShareLinks
        [("abc123", { file_name := JSVal.str "a.txt" }),
         ("def456", { file_name := JSVal.str "a.txt" })]] := by
  refine ⟨by decide, by decide, by decide⟩

/-- C13, amended: revoking the link id `L` sends one signed DELETE on
`https://localhost:27401/link/` followed by the URI-encoded `L`. On status 200 the
boxes of `L` are removed from the displayed list while every other box is kept,
unchanged and in order, and the file listing is requested, whose own success then
requests the link listing; the mappings kept by the Show Share Links listeners are
not touched, so until that refetch a click lists what it listed before. On any other
status nothing is removed and nothing is requested. -/
theorem revoke_effects (env : Env) (s : DashState) (L : String) :
    sentRequests (step env s (Event.clickDelete L)).2 =
      [{ method := "DELETE",
         url := "https://localhost:27401/link/" ++ encodeURIComponent L,
         headers := signedHeaders env s.reads
           ("https://localhost:27401/link/" ++ encodeURIComponent L),
         body := Body.empty }] ∧
    (∀ x : XhrDone, x.status = 200 →
      (step env s (Event.deleteDone L x)).1.linkBoxes =
        s.linkBoxes.filter (fun box => decide (box.1 ≠ L)) ∧
      (step env s (Event.deleteDone L x)).1.listeners = s.listeners ∧
      (step env s (Event.deleteDone L x)).1.files = s.files ∧
      sentRequests (step env s (Event.deleteDone L x)).2 =
        [{ method := "GET", url := "https://localhost:8080/files",
           headers := signedHeaders env s.reads "https://localhost:8080/files",
           body := Body.empty }] ∧
      (∀ f, (step env (step env s (Event.deleteDone L x)).1
          (Event.clickShowShareLinks f)).2 =
        (step env s (Event.clickShowShareLinks f)).2)) ∧
    (∀ x : XhrDone, ∀ fileList, x.status = 200 →
      env.parseFiles x.responseText = some fileList →
      sentRequests (step env s (Event.filesDone x)).2 =
        [{ method := "GET", url := "https://localhost:8080/links",
           headers := signedHeaders env s.reads "https://localhost:8080/links",
           body := Body.empty }] ∧
      (step env s (Event.filesDone x)).1.listeners = []) ∧
    (∀ x : XhrDone, x.status ≠ 200 →
      step env s (Event.deleteDone L x) =
        (s, [Effect.consoleError "Failed to delete link:" x.statusText])) := by
  refine ⟨?_, ?_, ?_, ?_⟩
  · show sentRequests (deleteLink env s L).2 = _
    rw [(deleteLink_eq env s L).1]
    rfl
  · intro x hx
    have hstate : (step env s (Event.deleteDone L x)).1 =
        (fetchFiles env (removeDeletedLinkFromModal s L).1).1 := by
      simp [step, deleteLinkDone, hx]
    have heff : (step env s (Event.deleteDone L x)).2 =
        Effect.alert "Link deleted successfully" :: Effect.removeLinkBox L ::
          (fetchFiles env (removeDeletedLinkFromModal s L).1).2 := by
      simp [step, deleteLinkDone, hx, removeDeletedLinkFromModal]
    have hl : (step env s (Event.deleteDone L x)).1.listeners = s.listeners := by
      rw [hstate]; rfl
    refine ⟨?_, hl, by rw [hstate]; rfl, ?_, ?_⟩
    · rw [hstate]
      show List.filter _ s.linkBoxes = _
      apply List.filter_congr
      intro box _
      rw [link_id_beq]
      by_cases hb : box.1 = L <;> simp [hb]
    · rw [heff, (fetchFiles_eq env _).1]
      rfl
    · intro f
      simp only [step, showShareLinksClick_effects]
      rw [show (deleteLinkDone env s L x).1.listeners = s.listeners from hl]
  · intro x fileList hx hp
    constructor
    · simp only [step, fetchFilesDone, hx, hp, if_true, sentRequests,
        (fetchAllLinks_eq env _).1]
    · simp [step, fetchFilesDone, hx, hp, fetchAllLinks, getCurrentTimestamp]
  · intro x hx
    simp [step, deleteLinkDone, hx]

/-- Witness of the amended C13: in the state with the boxes of `abc123` and `def456`
on display, the revoke of `abc123` answered with 200 leaves the box of `def456`, and
answered with 500 leaves the state as it was. -/
theorem revoke_effects_witness :
    (step (listingEnv (some "tok1") (some "pk1"))
      { DashState.init with linkBoxes :=
          [("abc123", { file_name := JSVal.str "a.txt" }),
           ("def456", { file_name := JSVal.str "a.txt" })] }
      (Event.deleteDone "abc123"
        { status := 200, statusText := "OK", responseText := "" })).1.linkBoxes =
      List.filter (fun box => decide (box.1 ≠ "abc123"))
        [("abc123", { file_name := JSVal.str "a.txt" }),
         ("def456", { file_name := JSVal.str "a.txt" })] ∧
    step (listingEnv (some "tok1") (some "pk1")) DashState.init
      (Event.deleteDone "abc123"
        { status := 500, statusText := "Internal Server Error", responseText := "" }) =
      (DashState.init,
       [Effect.consoleError "Failed to delete link:" "Internal Server Error"]) :=
  ⟨((revoke_effects (listingEnv (some "tok1") (some "pk1"))
      { DashState.init with linkBoxes :=
          [("abc123", { file_name := JSVal.str "a.txt" }),
           ("def456", { file_name := JSVal.str "a.txt" })] } "abc123").2.1
      { status := 200, statusText := "OK", responseText := "" } rfl).1,
   (revoke_effects (listingEnv (some "tok1") (some "pk1")) DashState.init "abc123").2.2.2
      { status := 500, statusText := "Internal Server Error", responseText := "" }
      (by decide)⟩

/-! ### The canonical message -/

theorem isDigit_ne_plus (c : Char) (h : c.isDigit = true) : c ≠ '+' := by
  intro hc
  rw [hc] at h
  exact absurd h (by decide)

theorem digitChar_isDigit (m : Nat) (h : m < 10) : (Nat.digitChar m).isDigit = true := by
  interval_cases m <;> decide

theorem toDigitsCore_isDigit (fuel n : Nat) (ds : List Char)
    (hds : ∀ c ∈ ds, c.isDigit = true) :
    ∀ c ∈ Nat.toDigitsCore 10 fuel n ds, c.isDigit = true := by
  induction fuel generalizing n ds with
  | zero => simpa [Nat.toDigitsCore] using hds
  | succ fuel ih =>
    have hcons : ∀ c ∈ Nat.digitChar (n % 10) :: ds, c.isDigit = true := by
      intro c hc
      rcases List.mem_cons.mp hc with h | h
      · rw [h]
        exact digitChar_isDigit _ (Nat.mod_lt _ (by norm_num))
      · exact hds c h
    unfold Nat.toDigitsCore
    by_cases h0 : n / 10 = 0
    · simpa only [h0, if_true] using hcons
    · simp only [h0, if_false]
      exact ih _ _ hcons

theorem toString_nat_isDecimal (n : Nat) : isDecimal (toString n) = true := by
  unfold isDecimal
  rw [List.all_eq_true]
  show ∀ c ∈ (Nat.repr n).data, c.isDigit = true
  unfold Nat.repr Nat.toDigits
  rw [List.asString]
  exact toDigitsCore_isDigit _ _ _ (by simp)

theorem canonicalMessage_inj (t1 t2 u1 u2 : String) (h1 : isDecimal t1 = true)
    (h2 : isDecimal t2 = true) (h : canonicalMessage t1 u1 = canonicalMessage t2 u2) :
    t1 = t2 ∧ u1 = u2 := by
  unfold isDecimal at h1 h2
  rw [List.all_eq_true] at h1 h2
  have hd : t1.data ++ '+' :: u1.data = t2.data ++ '+' :: u2.data := by
    have := congrArg String.data h
    simpa [canonicalMessage, String.data_append] using this
  obtain ⟨e1, e2⟩ := append_plus_cancel _ _ _ _
    (fun c hc => isDigit_ne_plus c (h1 c hc)) (fun c hc => isDigit_ne_plus c (h2 c hc)) hd
  exact ⟨String.ext e1, String.ext e2⟩

/-- C14: signing depends on exactly its inputs. Requests of any two sessions under the
same signer and private key that have the same Timestamp and the same URL carry the
same signature; every request is signed over `canonicalMessage` of its own Timestamp,
a string of decimal digits as `getCurrentTimestamp` always returns, and its URL; on
decimal timestamps `(timestamp, url) ↦ timestamp + "+" + url` is injective; so a change
of the key, of the timestamp or of the URL changes the pair of key and message that is
signed. -/
theorem signing_depends_on_inputs :
    (∀ (env1 env2 : Env) (s1 s2 : DashState) (evs1 evs2 : List Event),
      env1.jsencrypt = env2.jsencrypt → env1.private_key = env2.private_key →
      ∀ r1 ∈ sentRequests (run env1 s1 evs1).2, ∀ r2 ∈ sentRequests (run env2 s2 evs2).2,
        r1.header "Timestamp" = r2.header "Timestamp" → r1.url = r2.url →
        r1.header "Hash" = r2.header "Hash") ∧
    (∀ (env : Env) (s : DashState) (evs : List Event),
      ∀ r ∈ sentRequests (run env s evs).2, ∃ T, isDecimal T = true ∧
        r.header "Timestamp" = some T ∧
        r.header "Hash" =
          some (env.jsencrypt env.private_key (canonicalMessage T r.url)).toStr) ∧
    (∀ (env : Env) (s : DashState), isDecimal (getCurrentTimestamp env s).1 = true) ∧
    (∀ t1 t2 u1 u2, isDecimal t1 = true → isDecimal t2 = true →
      canonicalMessage t1 u1 = canonicalMessage t2 u2 → t1 = t2 ∧ u1 = u2) ∧
    (∀ (k1 k2 : Option String) t1 t2 u1 u2, isDecimal t1 = true → isDecimal t2 = true →
      (k1, t1, u1) ≠ (k2, t2, u2) →
      (k1, canonicalMessage t1 u1) ≠ (k2, canonicalMessage t2 u2)) := by
  refine ⟨?_, ?_, fun env s => toString_nat_isDecimal _, canonicalMessage_inj, ?_⟩
  · intro env1 env2 s1 s2 evs1 evs2 hj hk r1 h1 r2 h2 ht hu
    obtain ⟨k1, hk1⟩ := run_signed_mem env1 s1 evs1 r1 h1
    obtain ⟨k2, hk2⟩ := run_signed_mem env2 s2 evs2 r2 h2
    rw [hk1.headers_spec.1, hk2.headers_spec.1] at ht
    rw [hk1.headers_spec.2.1, hk2.headers_spec.2.1, Option.some.inj ht, hu]
    unfold signWithPrivateKey
    rw [hj, hk]
  · intro env s evs r hr
    obtain ⟨k, hk⟩ := run_signed_mem env s evs r hr
    exact ⟨_, toString_nat_isDecimal _, hk.headers_spec.1, hk.headers_spec.2.1⟩
  · intro k1 k2 t1 t2 u1 u2 h1 h2 hne h
    have hk : k1 = k2 := congrArg Prod.fst h
    have hm : canonicalMessage t1 u1 = canonicalMessage t2 u2 := congrArg Prod.snd h
    obtain ⟨e1, e2⟩ := canonicalMessage_inj t1 t2 u1 u2 h1 h2 hm
    exact hne (by rw [hk, e1, e2])

/-- Witness of C14: the timestamp `17` with the URL `/a` and the timestamp `1` with the
URL `7/a` are signed over different messages. -/
theorem signing_depends_on_inputs_witness :
    ((some "pk1" : Option String), canonicalMessage "17" "/a") ≠
      (some "pk1", canonicalMessage "1" "7/a") :=
  signing_depends_on_inputs.2.2.2.2 (some "pk1") (some "pk1") "17" "1" "/a" "7/a"
    (by decide) (by decide) (by decide)

end ESS
